import Mathlib

/-!
Shallow embedding of the athena-udf crate: the Arrow scalar conversion layer
(`arrow_conversions.rs`), the row-wise UDF execution engine (`process_macro.rs`),
the IPC framing and batch serialization (`serialization.rs`, `request.rs`),
and the JSON transport envelope (`response.rs`, `lib.rs`).

An Arrow array of element type `α` is modelled by its observable content: a
validity buffer (one `Bool` per slot, `true` = present) and a values buffer
(one `α` per slot, holding an arbitrary default at null slots), mirroring the
Arrow null-bitmap-plus-values layout that `is_null`/`value` read from.
The `f64` payload is carried opaquely as its 64-bit pattern (a `Nat`): none of
the embedded conversions inspect the value, they only move it.
-/

/-- The closed set of scalar types the crate implements adapters for
(`Utf8`, `Int64`, `Int32`, `Float64`, `Boolean`, `Binary`). -/
inductive ScalarType
  | utf8
  | int64
  | int32
  | float64
  | boolean
  | bytes
deriving DecidableEq, Repr

/-- The Rust carrier type of each scalar type (`String`, `i64`, `i32`, `f64`,
`bool`, `Vec<u8>`).  Machine integers are modelled as `Int` (the conversions
never do arithmetic on them), the `f64` as its bit pattern, bytes as `List Nat`. -/
@[reducible] def ScalarType.carrier : ScalarType → Type
  | .utf8 => String
  | .int64 => Int
  | .int32 => Int
  | .float64 => Nat
  | .boolean => Bool
  | .bytes => List Nat

/-- A default inhabitant of each carrier, used only to fill null slots of the
values buffer (Arrow stores an unspecified placeholder there). -/
def ScalarType.defaultValue : (t : ScalarType) → t.carrier
  | .utf8 => ("" : String)
  | .int64 => (0 : Int)
  | .int32 => (0 : Int)
  | .float64 => (0 : Nat)
  | .boolean => false
  | .bytes => ([] : List Nat)

instance (t : ScalarType) : Inhabited t.carrier := ⟨t.defaultValue⟩

/-- An Arrow array over element type `α`: a validity buffer and a values buffer. -/
structure ArrowArray (α : Type) where
  validity : List Bool
  values : List α

/-- Number of slots of the array. -/
def ArrowArray.size (a : ArrowArray α) : Nat := a.validity.length

/-- Arrow's `Array::is_null(index)`: the position is marked absent. -/
def ArrowArray.is_null (a : ArrowArray α) (i : Nat) : Bool :=
  !(a.validity.getD i false)

/-- Arrow's `Array::value(index)`: the raw slot of the values buffer. -/
def ArrowArray.value [Inhabited α] (a : ArrowArray α) (i : Nat) : α :=
  a.values.getD i default

/-- The plain `FromArrow::from_array` of every scalar impl in
`arrow_conversions.rs`: `if array.is_null(index) { None } else { Some(array.value(index)) }`.
(Each of the six impls is this same code at its own array type.) -/
def from_array [Inhabited α] (a : ArrowArray α) (i : Nat) : Option α :=
  if a.is_null i then none else some (a.value i)

/-- The plain `ToArrow::to_array` of every scalar impl: build an array from a
`Vec<Option<T>>`, placing a null wherever the element is `None` (Arrow's
`PrimitiveArray::from(Vec<Option<T>>)` constructors). -/
def to_array [Inhabited α] (vs : List (Option α)) : ArrowArray α :=
  { validity := vs.map Option.isSome
    values := vs.map (fun o => o.getD default) }

/-- `impl<T: FromArrow> FromArrow for Option<T>`:
`fn from_array(array, index) { Some(T::from_array(array, index)) }`. -/
def from_array_option [Inhabited α] (a : ArrowArray α) (i : Nat) : Option (Option α) :=
  some (from_array a i)

/-- `impl<T: ToArrow> ToArrow for Option<T>`: flatten each
`Option<Option<T>>` element (`opt.flatten()`) and delegate to `T::to_array`. -/
def to_array_option [Inhabited α] (vs : List (Option (Option α))) : ArrowArray α :=
  to_array (vs.map (fun o => o.join))

/-- Number of null slots of the array (Arrow's `null_count`). -/
def ArrowArray.null_count (a : ArrowArray α) : Nat :=
  (a.validity.filter (fun b => !b)).length

/-- A column of a record batch: an Arrow array tagged with its runtime array
type (`StringArray`, `Int64Array`, `Int32Array`, `Float64Array`, `BooleanArray`,
`BinaryArray`), the type that `as_any().downcast_ref` dispatches on. -/
inductive ArrowCol
  | utf8 (a : ArrowArray String)
  | int64 (a : ArrowArray Int)
  | int32 (a : ArrowArray Int)
  | float64 (a : ArrowArray Nat)
  | boolean (a : ArrowArray Bool)
  | bytes (a : ArrowArray (List Nat))

instance : Inhabited ArrowCol := ⟨.utf8 ⟨[], []⟩⟩

/-- `column.as_any().downcast_ref::<I::ArrayType>()`: succeeds exactly when the
column's runtime array type is the `ArrayType` of scalar type `t`
(`Option<T>` shares `T`'s `ArrayType`). -/
def ArrowCol.downcast : ArrowCol → (t : ScalarType) → Option (ArrowArray t.carrier)
  | .utf8 a, .utf8 => some a
  | .int64 a, .int64 => some a
  | .int32 a, .int32 => some a
  | .float64 a, .float64 => some a
  | .boolean a, .boolean => some a
  | .bytes a, .bytes => some a
  | _, _ => none

/-- Wrap a typed array as a tagged column (the `ArrayRef` returned by `to_array`). -/
def ArrowCol.ofArray : (t : ScalarType) → ArrowArray t.carrier → ArrowCol
  | .utf8, a => .utf8 a
  | .int64, a => .int64 a
  | .int32, a => .int32 a
  | .float64, a => .float64 a
  | .boolean, a => .boolean a
  | .bytes, a => .bytes a

/-- The Arrow `DataType` of a column, as a `ScalarType` tag. -/
def ArrowCol.data_type : ArrowCol → ScalarType
  | .utf8 _ => .utf8
  | .int64 _ => .int64
  | .int32 _ => .int32
  | .float64 _ => .float64
  | .boolean _ => .boolean
  | .bytes _ => .bytes

/-- Slot count of a column. -/
def ArrowCol.size : ArrowCol → Nat
  | .utf8 a => a.size
  | .int64 a => a.size
  | .int32 a => a.size
  | .float64 a => a.size
  | .boolean a => a.size
  | .bytes a => a.size

/-- Null count of a column. -/
def ArrowCol.null_count : ArrowCol → Nat
  | .utf8 a => a.null_count
  | .int64 a => a.null_count
  | .int32 a => a.null_count
  | .float64 a => a.null_count
  | .boolean a => a.null_count
  | .bytes a => a.null_count

/-- An Arrow schema field: `Field::new(name, data_type, nullable)`. -/
structure SchemaField where
  name : String
  data_type : ScalarType
  nullable : Bool
deriving DecidableEq

instance : Inhabited SchemaField := ⟨⟨"", .utf8, false⟩⟩

/-- An Arrow `RecordBatch`: a row count, a schema (list of fields) and the
columns. -/
structure RecordBatch where
  nrows : Nat
  fields : List SchemaField
  columns : List ArrowCol

/-- `RecordBatch::column(i)` (positional access; panics out of range in Arrow,
so theorems about it carry an in-range hypothesis). -/
def RecordBatch.column (b : RecordBatch) (i : Nat) : ArrowCol :=
  b.columns.getD i default

/-- `RecordBatch::num_rows()`. -/
def RecordBatch.num_rows (b : RecordBatch) : Nat := b.nrows

/-- `RecordBatch::try_new(schema, columns)`: validates that at least one column
exists, that the column count matches the field count, that each column's data
type matches its field's and contains no nulls unless the field is nullable,
and that all columns share one length (which becomes the row count). -/
def RecordBatch.try_new (fields : List SchemaField) (columns : List ArrowCol) :
    Except String RecordBatch :=
  if columns.length = 0 then
    .error "at least one column must be defined to create a record batch"
  else if fields.length ≠ columns.length then
    .error "number of columns must match number of fields"
  else if ¬ ((List.zip fields columns).all
      (fun fc => fc.1.data_type == fc.2.data_type
        && (fc.1.nullable || fc.2.null_count == 0))) then
    .error "column types must match schema types"
  else if ¬ (columns.all (fun c => c.size == (columns.getD 0 default).size)) then
    .error "all columns in a record batch must have the same length"
  else
    .ok ⟨(columns.getD 0 default).size, fields, columns⟩

/-- `UDFProcessor::process_unary::<I1, O, _>` at plain (non-`Option`) input and
output types: expansion of `impl_process!(process_unary, I1; O)`.  Downcast
column 0 to `I1::ArrayType`, then for each row read the input via `from_array`,
apply `user_fn` when present, collect, and build the single-column output batch
whose field is `Field::new(output_field_name, O::data_type(), true)`. -/
def process_unary (b : RecordBatch) (t1 tOut : ScalarType)
    (output_field_name : String) (user_fn : t1.carrier → tOut.carrier) :
    Except String RecordBatch :=
  match (b.column 0).downcast t1 with
  | none => .error "Column 0 type mismatch"
  | some a1 =>
    let results : List (Option tOut.carrier) :=
      (List.range b.num_rows).map (fun row_idx =>
        match from_array a1 row_idx with
        | some v1 => some (user_fn v1)
        | none => none)
    RecordBatch.try_new [⟨output_field_name, tOut, true⟩]
      [ArrowCol.ofArray tOut (to_array results)]

/-- Expansion of `impl_process!(process_binary, I1, I2; O)` at plain types. -/
def process_binary (b : RecordBatch) (t1 t2 tOut : ScalarType)
    (output_field_name : String)
    (user_fn : t1.carrier → t2.carrier → tOut.carrier) :
    Except String RecordBatch :=
  match (b.column 0).downcast t1 with
  | none => .error "Column 0 type mismatch"
  | some a1 =>
  match (b.column 1).downcast t2 with
  | none => .error "Column 1 type mismatch"
  | some a2 =>
    let results : List (Option tOut.carrier) :=
      (List.range b.num_rows).map (fun row_idx =>
        match from_array a1 row_idx, from_array a2 row_idx with
        | some v1, some v2 => some (user_fn v1 v2)
        | _, _ => none)
    RecordBatch.try_new [⟨output_field_name, tOut, true⟩]
      [ArrowCol.ofArray tOut (to_array results)]

/-- Expansion of `impl_process!(process_ternary, I1, I2, I3; O)` at plain types. -/
def process_ternary (b : RecordBatch) (t1 t2 t3 tOut : ScalarType)
    (output_field_name : String)
    (user_fn : t1.carrier → t2.carrier → t3.carrier → tOut.carrier) :
    Except String RecordBatch :=
  match (b.column 0).downcast t1 with
  | none => .error "Column 0 type mismatch"
  | some a1 =>
  match (b.column 1).downcast t2 with
  | none => .error "Column 1 type mismatch"
  | some a2 =>
  match (b.column 2).downcast t3 with
  | none => .error "Column 2 type mismatch"
  | some a3 =>
    let results : List (Option tOut.carrier) :=
      (List.range b.num_rows).map (fun row_idx =>
        match from_array a1 row_idx, from_array a2 row_idx,
            from_array a3 row_idx with
        | some v1, some v2, some v3 => some (user_fn v1 v2 v3)
        | _, _, _ => none)
    RecordBatch.try_new [⟨output_field_name, tOut, true⟩]
      [ArrowCol.ofArray tOut (to_array results)]

/-- Expansion of `impl_process!(process_quaternary, I1, I2, I3, I4; O)` at plain types. -/
def process_quaternary (b : RecordBatch) (t1 t2 t3 t4 tOut : ScalarType)
    (output_field_name : String)
    (user_fn : t1.carrier → t2.carrier → t3.carrier → t4.carrier → tOut.carrier) :
    Except String RecordBatch :=
  match (b.column 0).downcast t1 with
  | none => .error "Column 0 type mismatch"
  | some a1 =>
  match (b.column 1).downcast t2 with
  | none => .error "Column 1 type mismatch"
  | some a2 =>
  match (b.column 2).downcast t3 with
  | none => .error "Column 2 type mismatch"
  | some a3 =>
  match (b.column 3).downcast t4 with
  | none => .error "Column 3 type mismatch"
  | some a4 =>
    let results : List (Option tOut.carrier) :=
      (List.range b.num_rows).map (fun row_idx =>
        match from_array a1 row_idx, from_array a2 row_idx,
            from_array a3 row_idx, from_array a4 row_idx with
        | some v1, some v2, some v3, some v4 => some (user_fn v1 v2 v3 v4)
        | _, _, _, _ => none)
    RecordBatch.try_new [⟨output_field_name, tOut, true⟩]
      [ArrowCol.ofArray tOut (to_array results)]

/-- Expansion of `impl_process!(process_quinary, I1, I2, I3, I4, I5; O)` at plain types. -/
def process_quinary (b : RecordBatch) (t1 t2 t3 t4 t5 tOut : ScalarType)
    (output_field_name : String)
    (user_fn : t1.carrier → t2.carrier → t3.carrier → t4.carrier → t5.carrier →
      tOut.carrier) :
    Except String RecordBatch :=
  match (b.column 0).downcast t1 with
  | none => .error "Column 0 type mismatch"
  | some a1 =>
  match (b.column 1).downcast t2 with
  | none => .error "Column 1 type mismatch"
  | some a2 =>
  match (b.column 2).downcast t3 with
  | none => .error "Column 2 type mismatch"
  | some a3 =>
  match (b.column 3).downcast t4 with
  | none => .error "Column 3 type mismatch"
  | some a4 =>
  match (b.column 4).downcast t5 with
  | none => .error "Column 4 type mismatch"
  | some a5 =>
    let results : List (Option tOut.carrier) :=
      (List.range b.num_rows).map (fun row_idx =>
        match from_array a1 row_idx, from_array a2 row_idx,
            from_array a3 row_idx, from_array a4 row_idx,
            from_array a5 row_idx with
        | some v1, some v2, some v3, some v4, some v5 =>
          some (user_fn v1 v2 v3 v4 v5)
        | _, _, _, _, _ => none)
    RecordBatch.try_new [⟨output_field_name, tOut, true⟩]
      [ArrowCol.ofArray tOut (to_array results)]

/-- Expansion of `impl_process!(process_senary, I1, I2, I3, I4, I5, I6; O)` at plain types. -/
def process_senary (b : RecordBatch) (t1 t2 t3 t4 t5 t6 tOut : ScalarType)
    (output_field_name : String)
    (user_fn : t1.carrier → t2.carrier → t3.carrier → t4.carrier → t5.carrier →
      t6.carrier → tOut.carrier) :
    Except String RecordBatch :=
  match (b.column 0).downcast t1 with
  | none => .error "Column 0 type mismatch"
  | some a1 =>
  match (b.column 1).downcast t2 with
  | none => .error "Column 1 type mismatch"
  | some a2 =>
  match (b.column 2).downcast t3 with
  | none => .error "Column 2 type mismatch"
  | some a3 =>
  match (b.column 3).downcast t4 with
  | none => .error "Column 3 type mismatch"
  | some a4 =>
  match (b.column 4).downcast t5 with
  | none => .error "Column 4 type mismatch"
  | some a5 =>
  match (b.column 5).downcast t6 with
  | none => .error "Column 5 type mismatch"
  | some a6 =>
    let results : List (Option tOut.carrier) :=
      (List.range b.num_rows).map (fun row_idx =>
        match from_array a1 row_idx, from_array a2 row_idx,
            from_array a3 row_idx, from_array a4 row_idx,
            from_array a5 row_idx, from_array a6 row_idx with
        | some v1, some v2, some v3, some v4, some v5, some v6 =>
          some (user_fn v1 v2 v3 v4 v5 v6)
        | _, _, _, _, _, _ => none)
    RecordBatch.try_new [⟨output_field_name, tOut, true⟩]
      [ArrowCol.ofArray tOut (to_array results)]

/-- The single-column batch a successful `process_*` call constructs. -/
def output_batch (output_field_name : String) (tOut : ScalarType)
    (results : List (Option tOut.carrier)) : RecordBatch :=
  ⟨results.length, [⟨output_field_name, tOut, true⟩],
    [ArrowCol.ofArray tOut (to_array results)]⟩

/-- Observation helper: read slot `i` of column 0 of a batch at scalar type
`tOut` (downcast, then `from_array`); `none` if the downcast fails. -/
def read_column0 (out : RecordBatch) (tOut : ScalarType) (i : Nat) :
    Option (Option tOut.carrier) :=
  ((out.column 0).downcast tOut).map (fun arr => from_array arr i)

/-- `AthenaUDFRequest::process_with`, after the input batches and the declared
output schema have been decoded: take the name of field 0 of the output schema
(`output_schema.field(0).name()`) and run the processor once per input batch. -/
def process_with (input_batches : List RecordBatch) (output_schema : List SchemaField)
    (method_name : String)
    (processor : RecordBatch → String → String → Except String RecordBatch) :
    Except String (List RecordBatch) :=
  let output_col_name := (output_schema.getD 0 default).name
  input_batches.mapM (fun batch => processor batch method_name output_col_name)

/-- `arrow::ipc::writer::EncodedData`: the pre-encoded metadata flatbuffer of
one IPC message and its body bytes.  Bytes are modelled as `Nat`s. -/
structure EncodedData where
  ipc_message : List Nat
  arrow_data : List Nat

/-- `(len as i32).to_le_bytes()` where `len` is the metadata length (a usize):
the four little-endian bytes of `len mod 2^32`. -/
def int32_to_le_bytes (n : Nat) : List Nat :=
  let m : Nat := n % 2 ^ 32
  [m % 256, m / 256 % 256, m / 65536 % 256, m / 16777216 % 256]

/-- Read four little-endian bytes back as an `i32` (two's complement). -/
def le_bytes_to_int32 (bs : List Nat) : Int :=
  let m : Nat := bs.getD 0 0 + 256 * bs.getD 1 0 + 65536 * bs.getD 2 0
    + 16777216 * bs.getD 3 0
  if m < 2 ^ 31 then (m : Int) else (m : Int) - 2 ^ 32

/-- `write_ipc_message` from `serialization.rs`: append to `buffer`, in order,
the continuation marker `0xFFFFFFFF`, the metadata length as a little-endian
`i32`, the metadata flatbuffer, `(8 - len % 8) % 8` zero bytes of padding, and
the message body. -/
def write_ipc_message (buffer : List Nat) (encoded : EncodedData) : List Nat :=
  buffer ++ [0xFF, 0xFF, 0xFF, 0xFF]
    ++ int32_to_le_bytes encoded.ipc_message.length
    ++ encoded.ipc_message
    ++ List.replicate ((8 - encoded.ipc_message.length % 8) % 8) 0
    ++ encoded.arrow_data

/-- The loop of `serialize_batches`: for each batch, run the external
`IpcDataGenerator::encode` (the `encode` argument, which may fail), frame each
encoded dictionary first and then the encoded batch message. -/
def serialize_batches_loop
    (encode : RecordBatch → Except String (List EncodedData × EncodedData)) :
    List RecordBatch → List Nat → Except String (List Nat)
  | [], buffer => .ok buffer
  | batch :: rest, buffer =>
    match encode batch with
    | .error e => .error e
    | .ok (encoded_dictionaries, encoded_batch) =>
      let buffer := encoded_dictionaries.foldl write_ipc_message buffer
      serialize_batches_loop encode rest (write_ipc_message buffer encoded_batch)

/-- `serialize_batches`: start from an empty buffer and only enter the encode
loop when the slice is non-empty; an empty slice returns the empty buffer. -/
def serialize_batches
    (encode : RecordBatch → Except String (List EncodedData × EncodedData))
    (batches : List RecordBatch) : Except String (List Nat) :=
  if batches.isEmpty then .ok [] else serialize_batches_loop encode batches []

/-- One Arrow IPC stream message, at message granularity: a schema message or
a record-batch message. -/
inductive IpcMessage
  | schemaMsg (fields : List SchemaField)
  | batchMsg (b : RecordBatch)

/-- Modelled from the spec: the tail of the external Arrow `StreamReader`
(`collect` over the reader), which yields the stream's batch messages in order
and fails on a malformed stream. -/
def stream_decode_batches : List IpcMessage → Except String (List RecordBatch)
  | [] => .ok []
  | .batchMsg b :: rest =>
    match stream_decode_batches rest with
    | .ok bs => .ok (b :: bs)
    | .error e => .error e
  | .schemaMsg _ :: _ => .error "Error reading batch: unexpected schema message"

/-- Modelled from the spec: the external Arrow `StreamReader` parses a framed
stream as one schema message followed by zero or more batch messages;
`StreamReader::try_new` fails unless the stream opens with a schema message. -/
def stream_decode : List IpcMessage →
    Except String (List SchemaField × List RecordBatch)
  | .schemaMsg fs :: rest =>
    match stream_decode_batches rest with
    | .ok bs => .ok (fs, bs)
    | .error e => .error e
  | _ => .error "Failed to create StreamReader: invalid stream"

/-- `serialize_schema` at message granularity: a single schema message. -/
def serialize_schema_stream (fields : List SchemaField) : List IpcMessage :=
  [.schemaMsg fields]

/-- `AthenaUDFRequest::read_input_batches` at message granularity: concatenate
the schema-stream messages with the records-stream messages and parse the
result as a single stream, keeping the batches. -/
def read_input_batches (schema_stream records_stream : List IpcMessage) :
    Except String (List RecordBatch) :=
  match stream_decode (schema_stream ++ records_stream) with
  | .ok sb => .ok sb.2
  | .error e => .error e

/-- A `serde_json::Value`: JSON values with objects as association lists
(serde_json maps hold unique keys; lookup takes the first match). -/
inductive Json
  | null
  | bool (b : Bool)
  | num (n : Int)
  | str (s : String)
  | arr (elems : List Json)
  | obj (fields : List (String × Json))

/-- `serde_json::Value::get(key)`: field lookup on objects, `None` otherwise. -/
def Json.get : Json → String → Option Json
  | .obj fields, key => (fields.find? (fun p => p.1 == key)).map (fun p => p.2)
  | _, _ => none

/-- `serde_json::Value::as_str()`. -/
def Json.as_str : Json → Option String
  | .str s => some s
  | _ => none

/-- `AthenaResponse::parse_request`: if the payload has a string-typed `body`
field, parse that string as JSON (`decode` stands for the external
`serde_json::from_str`) and report HTTP mode; otherwise the payload itself is
the request, in direct mode. -/
def parse_request (decode : String → Except String Json) (payload : Json) :
    Except String (Json × Bool) :=
  match (payload.get "body").bind Json.as_str with
  | some body =>
    match decode body with
    | .ok v => .ok (v, true)
    | .error e => .error e
  | none => .ok (payload, false)

/-- `AthenaResponse::wrap_response`: in HTTP mode, wrap the serialized response
(`encode` stands for the external `serde_json::to_string`) in the fixed HTTP
envelope; in direct mode return the response value itself. -/
def wrap_response (encode : Json → String) (response : Json) (is_http : Bool) :
    Json :=
  if is_http then
    .obj [("statusCode", .num 200),
      ("headers", .obj [("content-type", .str "application/json")]),
      ("body", .str (encode response)),
      ("cookies", .arr []),
      ("isBase64Encoded", .bool false)]
  else response

/-- `handle_athena_request` from `lib.rs`: unwrap the transport, read the
`@type` discriminator as a string (failing with `Missing @type field` when
absent or non-string), dispatch `"PingRequest"` to the ping path and
`"UserDefinedFunctionRequest"` to the UDF path (`ping_handle` and
`udf_process` stand for the serde decode plus handling of each branch), fail
with `Unknown request type` on any other string, and wrap the response for the
detected transport. -/
def handle_athena_request (decode : String → Except String Json)
    (encode : Json → String)
    (ping_handle : Json → Except String Json)
    (udf_process : Json → Except String Json)
    (payload : Json) : Except String Json :=
  match parse_request decode payload with
  | .error e => .error e
  | .ok (actual_payload, is_http) =>
    match (actual_payload.get "@type").bind Json.as_str with
    | none => .error "Missing @type field"
    | some request_type =>
      match (if request_type = "PingRequest" then ping_handle actual_payload
        else if request_type = "UserDefinedFunctionRequest" then
          udf_process actual_payload
        else .error ("Unknown request type: " ++ request_type)) with
      | .error e => .error e
      | .ok response => .ok (wrap_response encode response is_http)

theorem to_array_size [Inhabited α] (vs : List (Option α)) :
    (to_array vs).size = vs.length := by
  simp [to_array, ArrowArray.size]

theorem to_array_is_null [Inhabited α] (vs : List (Option α)) (i : Nat)
    (h : i < vs.length) :
    (to_array vs).is_null i = (vs.getD i none).isNone := by
  simp only [to_array, ArrowArray.is_null]
  rw [List.getD_eq_getElem _ _ (by simpa using h),
    List.getD_eq_getElem _ _ (by simpa using h)]
  simp only [List.getElem_map]
  cases vs[i] <;> simp

theorem to_array_value [Inhabited α] (vs : List (Option α)) (i : Nat)
    (h : i < vs.length) :
    (to_array vs).value i = (vs.getD i none).getD default := by
  simp only [to_array, ArrowArray.value]
  rw [List.getD_eq_getElem _ _ (by simpa using h),
    List.getD_eq_getElem _ _ (by simpa using h)]
  simp

/-- Core round-trip: reading slot `i` of the array built from `vs` gives back
`vs[i]` exactly, including null slots. -/
theorem from_array_to_array [Inhabited α] (vs : List (Option α)) (i : Nat)
    (h : i < vs.length) :
    from_array (to_array vs) i = vs.getD i none := by
  unfold from_array
  rw [to_array_is_null vs i h, to_array_value vs i h]
  rw [List.getD_eq_getElem _ _ (by simpa using h)]
  cases vs[i] <;> simp

theorem to_array_option_join [Inhabited α] (vs : List (Option (Option α))) :
    to_array_option vs = to_array (vs.map (fun o => o.join)) := rfl

/-- C2: for every scalar type, the `Option<T>` adapter never itself produces
top-level absence on read: a null slot reads as `Some(None)` and a present slot
as `Some(Some(v))`; on write, `Some(None)` and `None` elements both become a
null slot, and `Some(Some(v))` a present slot holding `v`. -/
theorem claim_C2 (t : ScalarType) :
    (∀ (a : ArrowArray t.carrier) (i : Nat), from_array_option a i ≠ none) ∧
    (∀ (a : ArrowArray t.carrier) (i : Nat),
      (a.is_null i = true → from_array_option a i = some none) ∧
      (a.is_null i = false → from_array_option a i = some (some (a.value i)))) ∧
    (∀ (vs : List (Option (Option t.carrier))) (i : Nat), i < vs.length →
      ((vs.getD i none = some none ∨ vs.getD i none = none) →
        (to_array_option vs).is_null i = true) ∧
      (∀ v, vs.getD i none = some (some v) →
        (to_array_option vs).is_null i = false ∧ (to_array_option vs).value i = v)) := by
  refine ⟨fun a i => by simp [from_array_option], fun a i => ⟨?_, ?_⟩, fun vs i h => ⟨?_, ?_⟩⟩
  · intro hnull
    simp [from_array_option, from_array, hnull]
  · intro hval
    simp [from_array_option, from_array, hval]
  · intro hnone
    rw [to_array_option_join, to_array_is_null _ i (by simpa using h)]
    rw [List.getD_eq_getElem _ _ (by simpa using h)]
    rw [List.getD_eq_getElem _ _ (by simpa using h)] at hnone
    simp only [List.getElem_map]
    rcases hnone with hn | hn <;> rw [hn] <;> simp [Option.join]
  · intro v hv
    rw [List.getD_eq_getElem _ _ (by simpa using h)] at hv
    constructor
    · rw [to_array_option_join, to_array_is_null _ i (by simpa using h)]
      rw [List.getD_eq_getElem _ _ (by simpa using h)]
      simp only [List.getElem_map]
      rw [hv]
      simp [Option.join]
    · rw [to_array_option_join, to_array_value _ i (by simpa using h)]
      rw [List.getD_eq_getElem _ _ (by simpa using h)]
      simp only [List.getElem_map]
      rw [hv]
      simp [Option.join]

theorem claim_C2_witness :
    from_array_option (to_array_option
        ([some (some (7 : Int)), some none, none] : List (Option (Option Int)))) 0
      = some (some (7 : Int)) ∧
    (to_array_option ([some (some (7 : Int)), some none, none] :
        List (Option (Option Int)))).is_null 1 = true ∧
    (to_array_option ([some (some (7 : Int)), some none, none] :
        List (Option (Option Int)))).is_null 2 = true := by
  have h0 := ((claim_C2 .int64).2.2
    ([some (some (7 : Int)), some none, none] : List (Option (Option Int))) 0
    (by decide)).2 (7 : Int) rfl
  have h1 := ((claim_C2 .int64).2.2
    ([some (some (7 : Int)), some none, none] : List (Option (Option Int))) 1
    (by decide)).1 (Or.inl rfl)
  have h2 := ((claim_C2 .int64).2.2
    ([some (some (7 : Int)), some none, none] : List (Option (Option Int))) 2
    (by decide)).1 (Or.inr rfl)
  refine ⟨?_, h1, h2⟩
  simp [from_array_option, from_array, h0.1, h0.2]

/-- C6: for every scalar type, reading back every index of the array built by
`to_array vs` via `from_array` reproduces `vs` exactly, nulls included; the
Option-wrapped adapters round-trip up to flattening of `Some(None)` and `None`. -/
theorem claim_C6 (t : ScalarType) :
    (∀ (vs : List (Option t.carrier)) (i : Nat), i < vs.length →
      from_array (to_array vs) i = vs.getD i none) ∧
    (∀ (vs : List (Option (Option t.carrier))) (i : Nat), i < vs.length →
      from_array_option (to_array_option vs) i = some ((vs.getD i none).join)) := by
  constructor
  · intro vs i h
    exact from_array_to_array vs i h
  · intro vs i h
    rw [to_array_option_join]
    unfold from_array_option
    rw [from_array_to_array _ i (by simpa using h)]
    rw [List.getD_eq_getElem _ _ (by simpa using h),
      List.getD_eq_getElem _ _ (by simpa using h)]
    simp

theorem claim_C6_witness :
    from_array (to_array ([some "hello", none, some "world"] : List (Option String))) 1
      = ([some "hello", none, some "world"] : List (Option String)).getD 1 none ∧
    from_array_option (to_array_option
        ([some (some true), some none, none] : List (Option (Option Bool)))) 0
      = some ((([some (some true), some none, none] :
          List (Option (Option Bool))).getD 0 none).join) :=
  ⟨(claim_C6 .utf8).1 [some "hello", none, some "world"] 1 (by decide),
   (claim_C6 .boolean).2 [some (some true), some none, none] 0 (by decide)⟩

theorem ofArray_downcast (t : ScalarType) (a : ArrowArray t.carrier) :
    (ArrowCol.ofArray t a).downcast t = some a := by
  cases t <;> rfl

theorem ofArray_data_type (t : ScalarType) (a : ArrowArray t.carrier) :
    (ArrowCol.ofArray t a).data_type = t := by
  cases t <;> rfl

theorem ofArray_size (t : ScalarType) (a : ArrowArray t.carrier) :
    (ArrowCol.ofArray t a).size = a.size := by
  cases t <;> rfl

theorem try_new_output (nm : String) (tOut : ScalarType)
    (results : List (Option tOut.carrier)) :
    RecordBatch.try_new [⟨nm, tOut, true⟩] [ArrowCol.ofArray tOut (to_array results)]
      = .ok (output_batch nm tOut results) := by
  unfold RecordBatch.try_new output_batch
  simp [ofArray_data_type, ofArray_size, to_array_size]

theorem range_map_getD (n : Nat) (f : Nat → Option β) (i : Nat) (h : i < n) :
    ((List.range n).map f).getD i none = f i := by
  rw [List.getD_eq_getElem _ _ (by simpa using h)]
  simp

theorem output_batch_read (nm : String) (tOut : ScalarType)
    (results : List (Option tOut.carrier)) (i : Nat) (h : i < results.length) :
    read_column0 (output_batch nm tOut results) tOut i
      = some (results.getD i none) := by
  unfold read_column0 output_batch RecordBatch.column
  simp only [List.getD_cons_zero]
  rw [ofArray_downcast]
  simp [from_array_to_array results i h]

theorem process_unary_eq (b : RecordBatch) (t1 tOut : ScalarType) (nm : String)
    (f : t1.carrier → tOut.carrier) (a1 : ArrowArray t1.carrier)
    (h1 : (b.column 0).downcast t1 = some a1) :
    process_unary b t1 tOut nm f
      = .ok (output_batch nm tOut ((List.range b.num_rows).map (fun i =>
          match from_array a1 i with
          | some v1 => some (f v1)
          | none => none))) := by
  unfold process_unary
  rw [h1]
  exact try_new_output nm tOut _

theorem c1_unary (b : RecordBatch) (t1 tOut : ScalarType) (nm : String)
    (f : t1.carrier → tOut.carrier) (a1 : ArrowArray t1.carrier)
    (out : RecordBatch) (i : Nat)
    (hcols : 1 ≤ b.columns.length)
    (h1 : (b.column 0).downcast t1 = some a1)
    (hok : process_unary b t1 tOut nm f = .ok out)
    (hi : i < b.num_rows) :
    (from_array a1 i = none → read_column0 out tOut i = some none) ∧
    (∀ v1, from_array a1 i = some v1 →
      read_column0 out tOut i = some (some (f v1))) := by
  rw [process_unary_eq b t1 tOut nm f a1 h1] at hok
  injection hok with hout
  subst hout
  have hlen : i < ((List.range b.num_rows).map (fun i =>
      match from_array a1 i with
      | some v1 => some (f v1)
      | none => none)).length := by
    simpa using hi
  constructor
  · intro hnull
    rw [output_batch_read _ _ _ i hlen, range_map_getD _ _ i hi, hnull]
  · intro v1 hv
    rw [output_batch_read _ _ _ i hlen, range_map_getD _ _ i hi, hv]

theorem process_binary_eq (b : RecordBatch) (t1 t2 tOut : ScalarType) (nm : String)
    (f : t1.carrier → t2.carrier → tOut.carrier)
    (a1 : ArrowArray t1.carrier)
    (a2 : ArrowArray t2.carrier)
    (h1 : (b.column 0).downcast t1 = some a1)
    (h2 : (b.column 1).downcast t2 = some a2) :
    process_binary b t1 t2 tOut nm f
      = .ok (output_batch nm tOut ((List.range b.num_rows).map (fun i =>
          match from_array a1 i, from_array a2 i with
          | some v1, some v2 => some (f v1 v2)
          | _, _ => none))) := by
  unfold process_binary
  rw [h1, h2]
  exact try_new_output nm tOut _


theorem process_ternary_eq (b : RecordBatch) (t1 t2 t3 tOut : ScalarType) (nm : String)
    (f : t1.carrier → t2.carrier → t3.carrier → tOut.carrier)
    (a1 : ArrowArray t1.carrier)
    (a2 : ArrowArray t2.carrier)
    (a3 : ArrowArray t3.carrier)
    (h1 : (b.column 0).downcast t1 = some a1)
    (h2 : (b.column 1).downcast t2 = some a2)
    (h3 : (b.column 2).downcast t3 = some a3) :
    process_ternary b t1 t2 t3 tOut nm f
      = .ok (output_batch nm tOut ((List.range b.num_rows).map (fun i =>
          match from_array a1 i, from_array a2 i, from_array a3 i with
          | some v1, some v2, some v3 => some (f v1 v2 v3)
          | _, _, _ => none))) := by
  unfold process_ternary
  rw [h1, h2, h3]
  exact try_new_output nm tOut _


theorem process_quaternary_eq (b : RecordBatch) (t1 t2 t3 t4 tOut : ScalarType) (nm : String)
    (f : t1.carrier → t2.carrier → t3.carrier → t4.carrier → tOut.carrier)
    (a1 : ArrowArray t1.carrier)
    (a2 : ArrowArray t2.carrier)
    (a3 : ArrowArray t3.carrier)
    (a4 : ArrowArray t4.carrier)
    (h1 : (b.column 0).downcast t1 = some a1)
    (h2 : (b.column 1).downcast t2 = some a2)
    (h3 : (b.column 2).downcast t3 = some a3)
    (h4 : (b.column 3).downcast t4 = some a4) :
    process_quaternary b t1 t2 t3 t4 tOut nm f
      = .ok (output_batch nm tOut ((List.range b.num_rows).map (fun i =>
          match from_array a1 i, from_array a2 i, from_array a3 i, from_array a4 i with
          | some v1, some v2, some v3, some v4 => some (f v1 v2 v3 v4)
          | _, _, _, _ => none))) := by
  unfold process_quaternary
  rw [h1, h2, h3, h4]
  exact try_new_output nm tOut _


theorem process_quinary_eq (b : RecordBatch) (t1 t2 t3 t4 t5 tOut : ScalarType) (nm : String)
    (f : t1.carrier → t2.carrier → t3.carrier → t4.carrier → t5.carrier → tOut.carrier)
    (a1 : ArrowArray t1.carrier)
    (a2 : ArrowArray t2.carrier)
    (a3 : ArrowArray t3.carrier)
    (a4 : ArrowArray t4.carrier)
    (a5 : ArrowArray t5.carrier)
    (h1 : (b.column 0).downcast t1 = some a1)
    (h2 : (b.column 1).downcast t2 = some a2)
    (h3 : (b.column 2).downcast t3 = some a3)
    (h4 : (b.column 3).downcast t4 = some a4)
    (h5 : (b.column 4).downcast t5 = some a5) :
    process_quinary b t1 t2 t3 t4 t5 tOut nm f
      = .ok (output_batch nm tOut ((List.range b.num_rows).map (fun i =>
          match from_array a1 i, from_array a2 i, from_array a3 i, from_array a4 i, from_array a5 i with
          | some v1, some v2, some v3, some v4, some v5 => some (f v1 v2 v3 v4 v5)
          | _, _, _, _, _ => none))) := by
  unfold process_quinary
  rw [h1, h2, h3, h4, h5]
  exact try_new_output nm tOut _


theorem process_senary_eq (b : RecordBatch) (t1 t2 t3 t4 t5 t6 tOut : ScalarType) (nm : String)
    (f : t1.carrier → t2.carrier → t3.carrier → t4.carrier → t5.carrier → t6.carrier → tOut.carrier)
    (a1 : ArrowArray t1.carrier)
    (a2 : ArrowArray t2.carrier)
    (a3 : ArrowArray t3.carrier)
    (a4 : ArrowArray t4.carrier)
    (a5 : ArrowArray t5.carrier)
    (a6 : ArrowArray t6.carrier)
    (h1 : (b.column 0).downcast t1 = some a1)
    (h2 : (b.column 1).downcast t2 = some a2)
    (h3 : (b.column 2).downcast t3 = some a3)
    (h4 : (b.column 3).downcast t4 = some a4)
    (h5 : (b.column 4).downcast t5 = some a5)
    (h6 : (b.column 5).downcast t6 = some a6) :
    process_senary b t1 t2 t3 t4 t5 t6 tOut nm f
      = .ok (output_batch nm tOut ((List.range b.num_rows).map (fun i =>
          match from_array a1 i, from_array a2 i, from_array a3 i, from_array a4 i, from_array a5 i, from_array a6 i with
          | some v1, some v2, some v3, some v4, some v5, some v6 => some (f v1 v2 v3 v4 v5 v6)
          | _, _, _, _, _, _ => none))) := by
  unfold process_senary
  rw [h1, h2, h3, h4, h5, h6]
  exact try_new_output nm tOut _

theorem c1_binary (b : RecordBatch) (t1 t2 tOut : ScalarType) (nm : String)
    (f : t1.carrier → t2.carrier → tOut.carrier)
    (a1 : ArrowArray t1.carrier)
    (a2 : ArrowArray t2.carrier)
    (out : RecordBatch) (i : Nat)
    (hcols : 2 ≤ b.columns.length)
    (h1 : (b.column 0).downcast t1 = some a1)
    (h2 : (b.column 1).downcast t2 = some a2)
    (hok : process_binary b t1 t2 tOut nm f = .ok out)
    (hi : i < b.num_rows) :
    ((from_array a1 i = none ∨ from_array a2 i = none) → read_column0 out tOut i = some none) ∧
    (∀ v1 v2, from_array a1 i = some v1 → from_array a2 i = some v2 →
      read_column0 out tOut i = some (some (f v1 v2))) := by
  rw [process_binary_eq b t1 t2 tOut nm f a1 a2 h1 h2] at hok
  injection hok with hout
  subst hout
  have hlen : i < ((List.range b.num_rows).map (fun i =>
      match from_array a1 i, from_array a2 i with
      | some v1, some v2 => some (f v1 v2)
      | _, _ => none)).length := by
    simpa using hi
  constructor
  · intro hnull
    rw [output_batch_read _ _ _ i hlen, range_map_getD _ _ i hi]
    rcases ha1 : from_array a1 i with _ | w1 <;>
      rcases ha2 : from_array a2 i with _ | w2 <;>
      simp_all
  · intro v1 v2 hv1 hv2
    rw [output_batch_read _ _ _ i hlen, range_map_getD _ _ i hi, hv1, hv2]


theorem c1_ternary (b : RecordBatch) (t1 t2 t3 tOut : ScalarType) (nm : String)
    (f : t1.carrier → t2.carrier → t3.carrier → tOut.carrier)
    (a1 : ArrowArray t1.carrier)
    (a2 : ArrowArray t2.carrier)
    (a3 : ArrowArray t3.carrier)
    (out : RecordBatch) (i : Nat)
    (hcols : 3 ≤ b.columns.length)
    (h1 : (b.column 0).downcast t1 = some a1)
    (h2 : (b.column 1).downcast t2 = some a2)
    (h3 : (b.column 2).downcast t3 = some a3)
    (hok : process_ternary b t1 t2 t3 tOut nm f = .ok out)
    (hi : i < b.num_rows) :
    ((from_array a1 i = none ∨ from_array a2 i = none ∨ from_array a3 i = none) → read_column0 out tOut i = some none) ∧
    (∀ v1 v2 v3, from_array a1 i = some v1 → from_array a2 i = some v2 → from_array a3 i = some v3 →
      read_column0 out tOut i = some (some (f v1 v2 v3))) := by
  rw [process_ternary_eq b t1 t2 t3 tOut nm f a1 a2 a3 h1 h2 h3] at hok
  injection hok with hout
  subst hout
  have hlen : i < ((List.range b.num_rows).map (fun i =>
      match from_array a1 i, from_array a2 i, from_array a3 i with
      | some v1, some v2, some v3 => some (f v1 v2 v3)
      | _, _, _ => none)).length := by
    simpa using hi
  constructor
  · intro hnull
    rw [output_batch_read _ _ _ i hlen, range_map_getD _ _ i hi]
    rcases ha1 : from_array a1 i with _ | w1 <;>
      rcases ha2 : from_array a2 i with _ | w2 <;>
      rcases ha3 : from_array a3 i with _ | w3 <;>
      simp_all
  · intro v1 v2 v3 hv1 hv2 hv3
    rw [output_batch_read _ _ _ i hlen, range_map_getD _ _ i hi, hv1, hv2, hv3]


theorem c1_quaternary (b : RecordBatch) (t1 t2 t3 t4 tOut : ScalarType) (nm : String)
    (f : t1.carrier → t2.carrier → t3.carrier → t4.carrier → tOut.carrier)
    (a1 : ArrowArray t1.carrier)
    (a2 : ArrowArray t2.carrier)
    (a3 : ArrowArray t3.carrier)
    (a4 : ArrowArray t4.carrier)
    (out : RecordBatch) (i : Nat)
    (hcols : 4 ≤ b.columns.length)
    (h1 : (b.column 0).downcast t1 = some a1)
    (h2 : (b.column 1).downcast t2 = some a2)
    (h3 : (b.column 2).downcast t3 = some a3)
    (h4 : (b.column 3).downcast t4 = some a4)
    (hok : process_quaternary b t1 t2 t3 t4 tOut nm f = .ok out)
    (hi : i < b.num_rows) :
    ((from_array a1 i = none ∨ from_array a2 i = none ∨ from_array a3 i = none ∨ from_array a4 i = none) → read_column0 out tOut i = some none) ∧
    (∀ v1 v2 v3 v4, from_array a1 i = some v1 → from_array a2 i = some v2 → from_array a3 i = some v3 → from_array a4 i = some v4 →
      read_column0 out tOut i = some (some (f v1 v2 v3 v4))) := by
  rw [process_quaternary_eq b t1 t2 t3 t4 tOut nm f a1 a2 a3 a4 h1 h2 h3 h4] at hok
  injection hok with hout
  subst hout
  have hlen : i < ((List.range b.num_rows).map (fun i =>
      match from_array a1 i, from_array a2 i, from_array a3 i, from_array a4 i with
      | some v1, some v2, some v3, some v4 => some (f v1 v2 v3 v4)
      | _, _, _, _ => none)).length := by
    simpa using hi
  constructor
  · intro hnull
    rw [output_batch_read _ _ _ i hlen, range_map_getD _ _ i hi]
    rcases ha1 : from_array a1 i with _ | w1 <;>
      rcases ha2 : from_array a2 i with _ | w2 <;>
      rcases ha3 : from_array a3 i with _ | w3 <;>
      rcases ha4 : from_array a4 i with _ | w4 <;>
      simp_all
  · intro v1 v2 v3 v4 hv1 hv2 hv3 hv4
    rw [output_batch_read _ _ _ i hlen, range_map_getD _ _ i hi, hv1, hv2, hv3, hv4]


theorem c1_quinary (b : RecordBatch) (t1 t2 t3 t4 t5 tOut : ScalarType) (nm : String)
    (f : t1.carrier → t2.carrier → t3.carrier → t4.carrier → t5.carrier → tOut.carrier)
    (a1 : ArrowArray t1.carrier)
    (a2 : ArrowArray t2.carrier)
    (a3 : ArrowArray t3.carrier)
    (a4 : ArrowArray t4.carrier)
    (a5 : ArrowArray t5.carrier)
    (out : RecordBatch) (i : Nat)
    (hcols : 5 ≤ b.columns.length)
    (h1 : (b.column 0).downcast t1 = some a1)
    (h2 : (b.column 1).downcast t2 = some a2)
    (h3 : (b.column 2).downcast t3 = some a3)
    (h4 : (b.column 3).downcast t4 = some a4)
    (h5 : (b.column 4).downcast t5 = some a5)
    (hok : process_quinary b t1 t2 t3 t4 t5 tOut nm f = .ok out)
    (hi : i < b.num_rows) :
    ((from_array a1 i = none ∨ from_array a2 i = none ∨ from_array a3 i = none ∨ from_array a4 i = none ∨ from_array a5 i = none) → read_column0 out tOut i = some none) ∧
    (∀ v1 v2 v3 v4 v5, from_array a1 i = some v1 → from_array a2 i = some v2 → from_array a3 i = some v3 → from_array a4 i = some v4 → from_array a5 i = some v5 →
      read_column0 out tOut i = some (some (f v1 v2 v3 v4 v5))) := by
  rw [process_quinary_eq b t1 t2 t3 t4 t5 tOut nm f a1 a2 a3 a4 a5 h1 h2 h3 h4 h5] at hok
  injection hok with hout
  subst hout
  have hlen : i < ((List.range b.num_rows).map (fun i =>
      match from_array a1 i, from_array a2 i, from_array a3 i, from_array a4 i, from_array a5 i with
      | some v1, some v2, some v3, some v4, some v5 => some (f v1 v2 v3 v4 v5)
      | _, _, _, _, _ => none)).length := by
    simpa using hi
  constructor
  · intro hnull
    rw [output_batch_read _ _ _ i hlen, range_map_getD _ _ i hi]
    rcases ha1 : from_array a1 i with _ | w1 <;>
      rcases ha2 : from_array a2 i with _ | w2 <;>
      rcases ha3 : from_array a3 i with _ | w3 <;>
      rcases ha4 : from_array a4 i with _ | w4 <;>
      rcases ha5 : from_array a5 i with _ | w5 <;>
      simp_all
  · intro v1 v2 v3 v4 v5 hv1 hv2 hv3 hv4 hv5
    rw [output_batch_read _ _ _ i hlen, range_map_getD _ _ i hi, hv1, hv2, hv3, hv4, hv5]


theorem c1_senary (b : RecordBatch) (t1 t2 t3 t4 t5 t6 tOut : ScalarType) (nm : String)
    (f : t1.carrier → t2.carrier → t3.carrier → t4.carrier → t5.carrier → t6.carrier → tOut.carrier)
    (a1 : ArrowArray t1.carrier)
    (a2 : ArrowArray t2.carrier)
    (a3 : ArrowArray t3.carrier)
    (a4 : ArrowArray t4.carrier)
    (a5 : ArrowArray t5.carrier)
    (a6 : ArrowArray t6.carrier)
    (out : RecordBatch) (i : Nat)
    (hcols : 6 ≤ b.columns.length)
    (h1 : (b.column 0).downcast t1 = some a1)
    (h2 : (b.column 1).downcast t2 = some a2)
    (h3 : (b.column 2).downcast t3 = some a3)
    (h4 : (b.column 3).downcast t4 = some a4)
    (h5 : (b.column 4).downcast t5 = some a5)
    (h6 : (b.column 5).downcast t6 = some a6)
    (hok : process_senary b t1 t2 t3 t4 t5 t6 tOut nm f = .ok out)
    (hi : i < b.num_rows) :
    ((from_array a1 i = none ∨ from_array a2 i = none ∨ from_array a3 i = none ∨ from_array a4 i = none ∨ from_array a5 i = none ∨ from_array a6 i = none) → read_column0 out tOut i = some none) ∧
    (∀ v1 v2 v3 v4 v5 v6, from_array a1 i = some v1 → from_array a2 i = some v2 → from_array a3 i = some v3 → from_array a4 i = some v4 → from_array a5 i = some v5 → from_array a6 i = some v6 →
      read_column0 out tOut i = some (some (f v1 v2 v3 v4 v5 v6))) := by
  rw [process_senary_eq b t1 t2 t3 t4 t5 t6 tOut nm f a1 a2 a3 a4 a5 a6 h1 h2 h3 h4 h5 h6] at hok
  injection hok with hout
  subst hout
  have hlen : i < ((List.range b.num_rows).map (fun i =>
      match from_array a1 i, from_array a2 i, from_array a3 i, from_array a4 i, from_array a5 i, from_array a6 i with
      | some v1, some v2, some v3, some v4, some v5, some v6 => some (f v1 v2 v3 v4 v5 v6)
      | _, _, _, _, _, _ => none)).length := by
    simpa using hi
  constructor
  · intro hnull
    rw [output_batch_read _ _ _ i hlen, range_map_getD _ _ i hi]
    rcases ha1 : from_array a1 i with _ | w1 <;>
      rcases ha2 : from_array a2 i with _ | w2 <;>
      rcases ha3 : from_array a3 i with _ | w3 <;>
      rcases ha4 : from_array a4 i with _ | w4 <;>
      rcases ha5 : from_array a5 i with _ | w5 <;>
      rcases ha6 : from_array a6 i with _ | w6 <;>
      simp only [ha1, ha2, ha3, ha4, ha5, ha6] at hnull ⊢ <;>
      first
        | rfl
        | exact absurd hnull (by simp)
  · intro v1 v2 v3 v4 v5 v6 hv1 hv2 hv3 hv4 hv5 hv6
    rw [output_batch_read _ _ _ i hlen, range_map_getD _ _ i hi, hv1, hv2, hv3, hv4, hv5, hv6]

/-- C1: for every input batch and registered plain-typed function of arity
1..6, at every row below the batch row count: if any plain-typed input column
is null at that row, the output of the `process_*` method is null there and the
user function contributes nothing to it; if all inputs are present, the output
at that row is the user function applied to the unwrapped values. -/
theorem claim_C1 :
    (∀ (b : RecordBatch) (t1 tOut : ScalarType) (nm : String)
      (f : t1.carrier → tOut.carrier)
      (a1 : ArrowArray t1.carrier)
      (out : RecordBatch) (i : Nat),
        1 ≤ b.columns.length →
        (b.column 0).downcast t1 = some a1 →
        process_unary b t1 tOut nm f = .ok out →
        i < b.num_rows →
        ((from_array a1 i = none) → read_column0 out tOut i = some none) ∧
        (∀ v1, from_array a1 i = some v1 →
          read_column0 out tOut i = some (some (f v1)))) ∧
    (∀ (b : RecordBatch) (t1 t2 tOut : ScalarType) (nm : String)
      (f : t1.carrier → t2.carrier → tOut.carrier)
      (a1 : ArrowArray t1.carrier) (a2 : ArrowArray t2.carrier)
      (out : RecordBatch) (i : Nat),
        2 ≤ b.columns.length →
        (b.column 0).downcast t1 = some a1 →
        (b.column 1).downcast t2 = some a2 →
        process_binary b t1 t2 tOut nm f = .ok out →
        i < b.num_rows →
        ((from_array a1 i = none ∨ from_array a2 i = none) → read_column0 out tOut i = some none) ∧
        (∀ v1 v2, from_array a1 i = some v1 → from_array a2 i = some v2 →
          read_column0 out tOut i = some (some (f v1 v2)))) ∧
    (∀ (b : RecordBatch) (t1 t2 t3 tOut : ScalarType) (nm : String)
      (f : t1.carrier → t2.carrier → t3.carrier → tOut.carrier)
      (a1 : ArrowArray t1.carrier) (a2 : ArrowArray t2.carrier) (a3 : ArrowArray t3.carrier)
      (out : RecordBatch) (i : Nat),
        3 ≤ b.columns.length →
        (b.column 0).downcast t1 = some a1 →
        (b.column 1).downcast t2 = some a2 →
        (b.column 2).downcast t3 = some a3 →
        process_ternary b t1 t2 t3 tOut nm f = .ok out →
        i < b.num_rows →
        ((from_array a1 i = none ∨ from_array a2 i = none ∨ from_array a3 i = none) → read_column0 out tOut i = some none) ∧
        (∀ v1 v2 v3, from_array a1 i = some v1 → from_array a2 i = some v2 → from_array a3 i = some v3 →
          read_column0 out tOut i = some (some (f v1 v2 v3)))) ∧
    (∀ (b : RecordBatch) (t1 t2 t3 t4 tOut : ScalarType) (nm : String)
      (f : t1.carrier → t2.carrier → t3.carrier → t4.carrier → tOut.carrier)
      (a1 : ArrowArray t1.carrier) (a2 : ArrowArray t2.carrier) (a3 : ArrowArray t3.carrier) (a4 : ArrowArray t4.carrier)
      (out : RecordBatch) (i : Nat),
        4 ≤ b.columns.length →
        (b.column 0).downcast t1 = some a1 →
        (b.column 1).downcast t2 = some a2 →
        (b.column 2).downcast t3 = some a3 →
        (b.column 3).downcast t4 = some a4 →
        process_quaternary b t1 t2 t3 t4 tOut nm f = .ok out →
        i < b.num_rows →
        ((from_array a1 i = none ∨ from_array a2 i = none ∨ from_array a3 i = none ∨ from_array a4 i = none) → read_column0 out tOut i = some none) ∧
        (∀ v1 v2 v3 v4, from_array a1 i = some v1 → from_array a2 i = some v2 → from_array a3 i = some v3 → from_array a4 i = some v4 →
          read_column0 out tOut i = some (some (f v1 v2 v3 v4)))) ∧
    (∀ (b : RecordBatch) (t1 t2 t3 t4 t5 tOut : ScalarType) (nm : String)
      (f : t1.carrier → t2.carrier → t3.carrier → t4.carrier → t5.carrier → tOut.carrier)
      (a1 : ArrowArray t1.carrier) (a2 : ArrowArray t2.carrier) (a3 : ArrowArray t3.carrier) (a4 : ArrowArray t4.carrier) (a5 : ArrowArray t5.carrier)
      (out : RecordBatch) (i : Nat),
        5 ≤ b.columns.length →
        (b.column 0).downcast t1 = some a1 →
        (b.column 1).downcast t2 = some a2 →
        (b.column 2).downcast t3 = some a3 →
        (b.column 3).downcast t4 = some a4 →
        (b.column 4).downcast t5 = some a5 →
        process_quinary b t1 t2 t3 t4 t5 tOut nm f = .ok out →
        i < b.num_rows →
        ((from_array a1 i = none ∨ from_array a2 i = none ∨ from_array a3 i = none ∨ from_array a4 i = none ∨ from_array a5 i = none) → read_column0 out tOut i = some none) ∧
        (∀ v1 v2 v3 v4 v5, from_array a1 i = some v1 → from_array a2 i = some v2 → from_array a3 i = some v3 → from_array a4 i = some v4 → from_array a5 i = some v5 →
          read_column0 out tOut i = some (some (f v1 v2 v3 v4 v5)))) ∧
    (∀ (b : RecordBatch) (t1 t2 t3 t4 t5 t6 tOut : ScalarType) (nm : String)
      (f : t1.carrier → t2.carrier → t3.carrier → t4.carrier → t5.carrier → t6.carrier → tOut.carrier)
      (a1 : ArrowArray t1.carrier) (a2 : ArrowArray t2.carrier) (a3 : ArrowArray t3.carrier) (a4 : ArrowArray t4.carrier) (a5 : ArrowArray t5.carrier) (a6 : ArrowArray t6.carrier)
      (out : RecordBatch) (i : Nat),
        6 ≤ b.columns.length →
        (b.column 0).downcast t1 = some a1 →
        (b.column 1).downcast t2 = some a2 →
        (b.column 2).downcast t3 = some a3 →
        (b.column 3).downcast t4 = some a4 →
        (b.column 4).downcast t5 = some a5 →
        (b.column 5).downcast t6 = some a6 →
        process_senary b t1 t2 t3 t4 t5 t6 tOut nm f = .ok out →
        i < b.num_rows →
        ((from_array a1 i = none ∨ from_array a2 i = none ∨ from_array a3 i = none ∨ from_array a4 i = none ∨ from_array a5 i = none ∨ from_array a6 i = none) → read_column0 out tOut i = some none) ∧
        (∀ v1 v2 v3 v4 v5 v6, from_array a1 i = some v1 → from_array a2 i = some v2 → from_array a3 i = some v3 → from_array a4 i = some v4 → from_array a5 i = some v5 → from_array a6 i = some v6 →
          read_column0 out tOut i = some (some (f v1 v2 v3 v4 v5 v6)))) :=
  ⟨c1_unary, c1_binary, c1_ternary, c1_quaternary, c1_quinary, c1_senary⟩

theorem claim_C1_witness :
    read_column0 (output_batch "o" ScalarType.int64 [some (6 : Int), none]) ScalarType.int64 1 = some none ∧
    read_column0 (output_batch "o" ScalarType.int64 [some (6 : Int), none]) ScalarType.int64 1 = some none ∧
    read_column0 (output_batch "o" ScalarType.int64 [some (7 : Int), none]) ScalarType.int64 1 = some none ∧
    read_column0 (output_batch "o" ScalarType.int64 [some (8 : Int), none]) ScalarType.int64 1 = some none ∧
    read_column0 (output_batch "o" ScalarType.int64 [some (9 : Int), none]) ScalarType.int64 1 = some none ∧
    read_column0 (output_batch "o" ScalarType.int64 [some (10 : Int), none]) ScalarType.int64 1 = some none ∧
    read_column0 (output_batch "o" ScalarType.int64 [some (6 : Int), none]) ScalarType.int64 0 = some (some (6 : Int)) := by
  refine ⟨?_, ?_, ?_, ?_, ?_, ?_, ?_⟩
  · exact (claim_C1.1 (⟨2, [], [ArrowCol.int64 ⟨[true, false], [(5 : Int), 0]⟩,
      ArrowCol.int64 ⟨[true, true], [(1 : Int), (2 : Int)]⟩,
      ArrowCol.int64 ⟨[true, true], [(1 : Int), (2 : Int)]⟩,
      ArrowCol.int64 ⟨[true, true], [(1 : Int), (2 : Int)]⟩,
      ArrowCol.int64 ⟨[true, true], [(1 : Int), (2 : Int)]⟩,
      ArrowCol.int64 ⟨[true, true], [(1 : Int), (2 : Int)]⟩]⟩ : RecordBatch)
      .int64 .int64 "o" (fun v => v + 1)
      ⟨[true, false], [(5 : Int), 0]⟩
      (output_batch "o" ScalarType.int64 [some (6 : Int), none]) 1 (by decide) rfl (by rfl) (by decide)).1 rfl
  · exact (claim_C1.2.1 (⟨2, [], [ArrowCol.int64 ⟨[true, false], [(5 : Int), 0]⟩,
      ArrowCol.int64 ⟨[true, true], [(1 : Int), (2 : Int)]⟩,
      ArrowCol.int64 ⟨[true, true], [(1 : Int), (2 : Int)]⟩,
      ArrowCol.int64 ⟨[true, true], [(1 : Int), (2 : Int)]⟩,
      ArrowCol.int64 ⟨[true, true], [(1 : Int), (2 : Int)]⟩,
      ArrowCol.int64 ⟨[true, true], [(1 : Int), (2 : Int)]⟩]⟩ : RecordBatch)
      .int64 .int64 .int64 "o" (fun v1 v2 => v1 + v2)
      ⟨[true, false], [(5 : Int), 0]⟩ ⟨[true, true], [(1 : Int), (2 : Int)]⟩
      (output_batch "o" ScalarType.int64 [some (6 : Int), none]) 1 (by decide) rfl rfl (by rfl) (by decide)).1 (Or.inl rfl)
  · exact (claim_C1.2.2.1 (⟨2, [], [ArrowCol.int64 ⟨[true, false], [(5 : Int), 0]⟩,
      ArrowCol.int64 ⟨[true, true], [(1 : Int), (2 : Int)]⟩,
      ArrowCol.int64 ⟨[true, true], [(1 : Int), (2 : Int)]⟩,
      ArrowCol.int64 ⟨[true, true], [(1 : Int), (2 : Int)]⟩,
      ArrowCol.int64 ⟨[true, true], [(1 : Int), (2 : Int)]⟩,
      ArrowCol.int64 ⟨[true, true], [(1 : Int), (2 : Int)]⟩]⟩ : RecordBatch)
      .int64 .int64 .int64 .int64 "o" (fun v1 v2 v3 => v1 + v2 + v3)
      ⟨[true, false], [(5 : Int), 0]⟩ ⟨[true, true], [(1 : Int), (2 : Int)]⟩ ⟨[true, true], [(1 : Int), (2 : Int)]⟩
      (output_batch "o" ScalarType.int64 [some (7 : Int), none]) 1 (by decide) rfl rfl rfl (by rfl) (by decide)).1 (Or.inl rfl)
  · exact (claim_C1.2.2.2.1 (⟨2, [], [ArrowCol.int64 ⟨[true, false], [(5 : Int), 0]⟩,
      ArrowCol.int64 ⟨[true, true], [(1 : Int), (2 : Int)]⟩,
      ArrowCol.int64 ⟨[true, true], [(1 : Int), (2 : Int)]⟩,
      ArrowCol.int64 ⟨[true, true], [(1 : Int), (2 : Int)]⟩,
      ArrowCol.int64 ⟨[true, true], [(1 : Int), (2 : Int)]⟩,
      ArrowCol.int64 ⟨[true, true], [(1 : Int), (2 : Int)]⟩]⟩ : RecordBatch)
      .int64 .int64 .int64 .int64 .int64 "o" (fun v1 v2 v3 v4 => v1 + v2 + v3 + v4)
      ⟨[true, false], [(5 : Int), 0]⟩ ⟨[true, true], [(1 : Int), (2 : Int)]⟩ ⟨[true, true], [(1 : Int), (2 : Int)]⟩ ⟨[true, true], [(1 : Int), (2 : Int)]⟩
      (output_batch "o" ScalarType.int64 [some (8 : Int), none]) 1 (by decide) rfl rfl rfl rfl (by rfl) (by decide)).1 (Or.inl rfl)
  · exact (claim_C1.2.2.2.2.1 (⟨2, [], [ArrowCol.int64 ⟨[true, false], [(5 : Int), 0]⟩,
      ArrowCol.int64 ⟨[true, true], [(1 : Int), (2 : Int)]⟩,
      ArrowCol.int64 ⟨[true, true], [(1 : Int), (2 : Int)]⟩,
      ArrowCol.int64 ⟨[true, true], [(1 : Int), (2 : Int)]⟩,
      ArrowCol.int64 ⟨[true, true], [(1 : Int), (2 : Int)]⟩,
      ArrowCol.int64 ⟨[true, true], [(1 : Int), (2 : Int)]⟩]⟩ : RecordBatch)
      .int64 .int64 .int64 .int64 .int64 .int64 "o" (fun v1 v2 v3 v4 v5 => v1 + v2 + v3 + v4 + v5)
      ⟨[true, false], [(5 : Int), 0]⟩ ⟨[true, true], [(1 : Int), (2 : Int)]⟩ ⟨[true, true], [(1 : Int), (2 : Int)]⟩ ⟨[true, true], [(1 : Int), (2 : Int)]⟩ ⟨[true, true], [(1 : Int), (2 : Int)]⟩
      (output_batch "o" ScalarType.int64 [some (9 : Int), none]) 1 (by decide) rfl rfl rfl rfl rfl (by rfl) (by decide)).1 (Or.inl rfl)
  · exact (claim_C1.2.2.2.2.2 (⟨2, [], [ArrowCol.int64 ⟨[true, false], [(5 : Int), 0]⟩,
      ArrowCol.int64 ⟨[true, true], [(1 : Int), (2 : Int)]⟩,
      ArrowCol.int64 ⟨[true, true], [(1 : Int), (2 : Int)]⟩,
      ArrowCol.int64 ⟨[true, true], [(1 : Int), (2 : Int)]⟩,
      ArrowCol.int64 ⟨[true, true], [(1 : Int), (2 : Int)]⟩,
      ArrowCol.int64 ⟨[true, true], [(1 : Int), (2 : Int)]⟩]⟩ : RecordBatch)
      .int64 .int64 .int64 .int64 .int64 .int64 .int64 "o" (fun v1 v2 v3 v4 v5 v6 => v1 + v2 + v3 + v4 + v5 + v6)
      ⟨[true, false], [(5 : Int), 0]⟩ ⟨[true, true], [(1 : Int), (2 : Int)]⟩ ⟨[true, true], [(1 : Int), (2 : Int)]⟩ ⟨[true, true], [(1 : Int), (2 : Int)]⟩ ⟨[true, true], [(1 : Int), (2 : Int)]⟩ ⟨[true, true], [(1 : Int), (2 : Int)]⟩
      (output_batch "o" ScalarType.int64 [some (10 : Int), none]) 1 (by decide) rfl rfl rfl rfl rfl rfl (by rfl) (by decide)).1 (Or.inl rfl)
  · exact (claim_C1.1 (⟨2, [], [ArrowCol.int64 ⟨[true, false], [(5 : Int), 0]⟩,
      ArrowCol.int64 ⟨[true, true], [(1 : Int), (2 : Int)]⟩,
      ArrowCol.int64 ⟨[true, true], [(1 : Int), (2 : Int)]⟩,
      ArrowCol.int64 ⟨[true, true], [(1 : Int), (2 : Int)]⟩,
      ArrowCol.int64 ⟨[true, true], [(1 : Int), (2 : Int)]⟩,
      ArrowCol.int64 ⟨[true, true], [(1 : Int), (2 : Int)]⟩]⟩ : RecordBatch)
      .int64 .int64 "o" (fun v => v + 1)
      ⟨[true, false], [(5 : Int), 0]⟩
      (output_batch "o" ScalarType.int64 [some (6 : Int), none]) 0 (by decide) rfl (by rfl) (by decide)).2 5 rfl

theorem c8_binary (b : RecordBatch) (t1 t2 tOut : ScalarType) (nm : String)
    (f : t1.carrier → t2.carrier → tOut.carrier)
    (hcols : 2 ≤ b.columns.length) :
    ((∃ e, process_binary b t1 t2 tOut nm f = .error e) ↔
      ((b.column 0).downcast t1 = none ∨ (b.column 1).downcast t2 = none)) ∧
    (((b.column 0).downcast t1 = none ∨ (b.column 1).downcast t2 = none) →
      ∀ (g : t1.carrier → t2.carrier → tOut.carrier),
        process_binary b t1 t2 tOut nm g = process_binary b t1 t2 tOut nm f) ∧
    (¬ ((b.column 0).downcast t1 = none ∨ (b.column 1).downcast t2 = none) →
      ∃ out, process_binary b t1 t2 tOut nm f = .ok out) ∧
    (∀ fs2, process_binary ⟨b.nrows, fs2, b.columns⟩ t1 t2 tOut nm f
      = process_binary b t1 t2 tOut nm f) := by
  refine ⟨⟨?_, ?_⟩, ?_, ?_, ?_⟩
  · rintro ⟨e, he⟩
    by_contra hno
    push_neg at hno
    rcases hd1 : (b.column 0).downcast t1 with _ | a1
    · exact hno.1 hd1
    rcases hd2 : (b.column 1).downcast t2 with _ | a2
    · exact hno.2 hd2
    rw [process_binary_eq b t1 t2 tOut nm f a1 a2 hd1 hd2] at he
    simp at he
  · intro hor
    rcases hd1 : (b.column 0).downcast t1 with _ | a1
    · exact ⟨"Column 0 type mismatch", by unfold process_binary; rw [hd1]⟩
    rcases hd2 : (b.column 1).downcast t2 with _ | a2
    · exact ⟨"Column 1 type mismatch", by unfold process_binary; rw [hd1, hd2]⟩
    rcases hor with hn | hn <;> simp_all
  · intro hor g
    rcases hd1 : (b.column 0).downcast t1 with _ | a1
    · unfold process_binary
      rw [hd1]
    rcases hd2 : (b.column 1).downcast t2 with _ | a2
    · unfold process_binary
      rw [hd1, hd2]
    rcases hor with hn | hn <;> simp_all
  · intro hno
    push_neg at hno
    rcases hd1 : (b.column 0).downcast t1 with _ | a1
    · exact absurd hd1 hno.1
    rcases hd2 : (b.column 1).downcast t2 with _ | a2
    · exact absurd hd2 hno.2
    exact ⟨_, process_binary_eq b t1 t2 tOut nm f a1 a2 hd1 hd2⟩
  · intro fs2
    rfl

theorem c8_unary (b : RecordBatch) (t1 tOut : ScalarType) (nm : String)
    (f : t1.carrier → tOut.carrier)
    (hcols : 1 ≤ b.columns.length) :
    ((∃ e, process_unary b t1 tOut nm f = .error e) ↔
      ((b.column 0).downcast t1 = none)) ∧
    (((b.column 0).downcast t1 = none) →
      ∀ (g : t1.carrier → tOut.carrier),
        process_unary b t1 tOut nm g = process_unary b t1 tOut nm f) ∧
    (¬ ((b.column 0).downcast t1 = none) →
      ∃ out, process_unary b t1 tOut nm f = .ok out) ∧
    (∀ fs2, process_unary ⟨b.nrows, fs2, b.columns⟩ t1 tOut nm f
      = process_unary b t1 tOut nm f) := by
  refine ⟨⟨?_, ?_⟩, ?_, ?_, ?_⟩
  · rintro ⟨e, he⟩
    by_contra hno
    push_neg at hno
    rcases hd1 : (b.column 0).downcast t1 with _ | a1
    · exact hno hd1
    rw [process_unary_eq b t1 tOut nm f a1 hd1] at he
    simp at he
  · intro hor
    rcases hd1 : (b.column 0).downcast t1 with _ | a1
    · exact ⟨"Column 0 type mismatch", by unfold process_unary; rw [hd1]⟩
    simp_all
  · intro hor g
    rcases hd1 : (b.column 0).downcast t1 with _ | a1
    · unfold process_unary
      rw [hd1]
    simp_all
  · intro hno
    push_neg at hno
    rcases hd1 : (b.column 0).downcast t1 with _ | a1
    · exact absurd hd1 hno
    exact ⟨_, process_unary_eq b t1 tOut nm f a1 hd1⟩
  · intro fs2
    rfl


theorem c8_ternary (b : RecordBatch) (t1 t2 t3 tOut : ScalarType) (nm : String)
    (f : t1.carrier → t2.carrier → t3.carrier → tOut.carrier)
    (hcols : 3 ≤ b.columns.length) :
    ((∃ e, process_ternary b t1 t2 t3 tOut nm f = .error e) ↔
      ((b.column 0).downcast t1 = none ∨ (b.column 1).downcast t2 = none ∨ (b.column 2).downcast t3 = none)) ∧
    (((b.column 0).downcast t1 = none ∨ (b.column 1).downcast t2 = none ∨ (b.column 2).downcast t3 = none) →
      ∀ (g : t1.carrier → t2.carrier → t3.carrier → tOut.carrier),
        process_ternary b t1 t2 t3 tOut nm g = process_ternary b t1 t2 t3 tOut nm f) ∧
    (¬ ((b.column 0).downcast t1 = none ∨ (b.column 1).downcast t2 = none ∨ (b.column 2).downcast t3 = none) →
      ∃ out, process_ternary b t1 t2 t3 tOut nm f = .ok out) ∧
    (∀ fs2, process_ternary ⟨b.nrows, fs2, b.columns⟩ t1 t2 t3 tOut nm f
      = process_ternary b t1 t2 t3 tOut nm f) := by
  refine ⟨⟨?_, ?_⟩, ?_, ?_, ?_⟩
  · rintro ⟨e, he⟩
    by_contra hno
    push_neg at hno
    rcases hd1 : (b.column 0).downcast t1 with _ | a1
    · exact hno.1 hd1
    rcases hd2 : (b.column 1).downcast t2 with _ | a2
    · exact hno.2.1 hd2
    rcases hd3 : (b.column 2).downcast t3 with _ | a3
    · exact hno.2.2 hd3
    rw [process_ternary_eq b t1 t2 t3 tOut nm f a1 a2 a3 hd1 hd2 hd3] at he
    simp at he
  · intro hor
    rcases hd1 : (b.column 0).downcast t1 with _ | a1
    · exact ⟨"Column 0 type mismatch", by unfold process_ternary; rw [hd1]⟩
    rcases hd2 : (b.column 1).downcast t2 with _ | a2
    · exact ⟨"Column 1 type mismatch", by unfold process_ternary; rw [hd1, hd2]⟩
    rcases hd3 : (b.column 2).downcast t3 with _ | a3
    · exact ⟨"Column 2 type mismatch", by unfold process_ternary; rw [hd1, hd2, hd3]⟩
    rcases hor with hn | hn | hn <;> simp_all
  · intro hor g
    rcases hd1 : (b.column 0).downcast t1 with _ | a1
    · unfold process_ternary
      rw [hd1]
    rcases hd2 : (b.column 1).downcast t2 with _ | a2
    · unfold process_ternary
      rw [hd1, hd2]
    rcases hd3 : (b.column 2).downcast t3 with _ | a3
    · unfold process_ternary
      rw [hd1, hd2, hd3]
    rcases hor with hn | hn | hn <;> simp_all
  · intro hno
    push_neg at hno
    rcases hd1 : (b.column 0).downcast t1 with _ | a1
    · exact absurd hd1 hno.1
    rcases hd2 : (b.column 1).downcast t2 with _ | a2
    · exact absurd hd2 hno.2.1
    rcases hd3 : (b.column 2).downcast t3 with _ | a3
    · exact absurd hd3 hno.2.2
    exact ⟨_, process_ternary_eq b t1 t2 t3 tOut nm f a1 a2 a3 hd1 hd2 hd3⟩
  · intro fs2
    rfl


theorem c8_quaternary (b : RecordBatch) (t1 t2 t3 t4 tOut : ScalarType) (nm : String)
    (f : t1.carrier → t2.carrier → t3.carrier → t4.carrier → tOut.carrier)
    (hcols : 4 ≤ b.columns.length) :
    ((∃ e, process_quaternary b t1 t2 t3 t4 tOut nm f = .error e) ↔
      ((b.column 0).downcast t1 = none ∨ (b.column 1).downcast t2 = none ∨ (b.column 2).downcast t3 = none ∨ (b.column 3).downcast t4 = none)) ∧
    (((b.column 0).downcast t1 = none ∨ (b.column 1).downcast t2 = none ∨ (b.column 2).downcast t3 = none ∨ (b.column 3).downcast t4 = none) →
      ∀ (g : t1.carrier → t2.carrier → t3.carrier → t4.carrier → tOut.carrier),
        process_quaternary b t1 t2 t3 t4 tOut nm g = process_quaternary b t1 t2 t3 t4 tOut nm f) ∧
    (¬ ((b.column 0).downcast t1 = none ∨ (b.column 1).downcast t2 = none ∨ (b.column 2).downcast t3 = none ∨ (b.column 3).downcast t4 = none) →
      ∃ out, process_quaternary b t1 t2 t3 t4 tOut nm f = .ok out) ∧
    (∀ fs2, process_quaternary ⟨b.nrows, fs2, b.columns⟩ t1 t2 t3 t4 tOut nm f
      = process_quaternary b t1 t2 t3 t4 tOut nm f) := by
  refine ⟨⟨?_, ?_⟩, ?_, ?_, ?_⟩
  · rintro ⟨e, he⟩
    by_contra hno
    push_neg at hno
    rcases hd1 : (b.column 0).downcast t1 with _ | a1
    · exact hno.1 hd1
    rcases hd2 : (b.column 1).downcast t2 with _ | a2
    · exact hno.2.1 hd2
    rcases hd3 : (b.column 2).downcast t3 with _ | a3
    · exact hno.2.2.1 hd3
    rcases hd4 : (b.column 3).downcast t4 with _ | a4
    · exact hno.2.2.2 hd4
    rw [process_quaternary_eq b t1 t2 t3 t4 tOut nm f a1 a2 a3 a4 hd1 hd2 hd3 hd4] at he
    simp at he
  · intro hor
    rcases hd1 : (b.column 0).downcast t1 with _ | a1
    · exact ⟨"Column 0 type mismatch", by unfold process_quaternary; rw [hd1]⟩
    rcases hd2 : (b.column 1).downcast t2 with _ | a2
    · exact ⟨"Column 1 type mismatch", by unfold process_quaternary; rw [hd1, hd2]⟩
    rcases hd3 : (b.column 2).downcast t3 with _ | a3
    · exact ⟨"Column 2 type mismatch", by unfold process_quaternary; rw [hd1, hd2, hd3]⟩
    rcases hd4 : (b.column 3).downcast t4 with _ | a4
    · exact ⟨"Column 3 type mismatch", by unfold process_quaternary; rw [hd1, hd2, hd3, hd4]⟩
    rcases hor with hn | hn | hn | hn <;> simp_all
  · intro hor g
    rcases hd1 : (b.column 0).downcast t1 with _ | a1
    · unfold process_quaternary
      rw [hd1]
    rcases hd2 : (b.column 1).downcast t2 with _ | a2
    · unfold process_quaternary
      rw [hd1, hd2]
    rcases hd3 : (b.column 2).downcast t3 with _ | a3
    · unfold process_quaternary
      rw [hd1, hd2, hd3]
    rcases hd4 : (b.column 3).downcast t4 with _ | a4
    · unfold process_quaternary
      rw [hd1, hd2, hd3, hd4]
    rcases hor with hn | hn | hn | hn <;> simp_all
  · intro hno
    push_neg at hno
    rcases hd1 : (b.column 0).downcast t1 with _ | a1
    · exact absurd hd1 hno.1
    rcases hd2 : (b.column 1).downcast t2 with _ | a2
    · exact absurd hd2 hno.2.1
    rcases hd3 : (b.column 2).downcast t3 with _ | a3
    · exact absurd hd3 hno.2.2.1
    rcases hd4 : (b.column 3).downcast t4 with _ | a4
    · exact absurd hd4 hno.2.2.2
    exact ⟨_, process_quaternary_eq b t1 t2 t3 t4 tOut nm f a1 a2 a3 a4 hd1 hd2 hd3 hd4⟩
  · intro fs2
    rfl


theorem c8_quinary (b : RecordBatch) (t1 t2 t3 t4 t5 tOut : ScalarType) (nm : String)
    (f : t1.carrier → t2.carrier → t3.carrier → t4.carrier → t5.carrier → tOut.carrier)
    (hcols : 5 ≤ b.columns.length) :
    ((∃ e, process_quinary b t1 t2 t3 t4 t5 tOut nm f = .error e) ↔
      ((b.column 0).downcast t1 = none ∨ (b.column 1).downcast t2 = none ∨ (b.column 2).downcast t3 = none ∨ (b.column 3).downcast t4 = none ∨ (b.column 4).downcast t5 = none)) ∧
    (((b.column 0).downcast t1 = none ∨ (b.column 1).downcast t2 = none ∨ (b.column 2).downcast t3 = none ∨ (b.column 3).downcast t4 = none ∨ (b.column 4).downcast t5 = none) →
      ∀ (g : t1.carrier → t2.carrier → t3.carrier → t4.carrier → t5.carrier → tOut.carrier),
        process_quinary b t1 t2 t3 t4 t5 tOut nm g = process_quinary b t1 t2 t3 t4 t5 tOut nm f) ∧
    (¬ ((b.column 0).downcast t1 = none ∨ (b.column 1).downcast t2 = none ∨ (b.column 2).downcast t3 = none ∨ (b.column 3).downcast t4 = none ∨ (b.column 4).downcast t5 = none) →
      ∃ out, process_quinary b t1 t2 t3 t4 t5 tOut nm f = .ok out) ∧
    (∀ fs2, process_quinary ⟨b.nrows, fs2, b.columns⟩ t1 t2 t3 t4 t5 tOut nm f
      = process_quinary b t1 t2 t3 t4 t5 tOut nm f) := by
  refine ⟨⟨?_, ?_⟩, ?_, ?_, ?_⟩
  · rintro ⟨e, he⟩
    by_contra hno
    push_neg at hno
    rcases hd1 : (b.column 0).downcast t1 with _ | a1
    · exact hno.1 hd1
    rcases hd2 : (b.column 1).downcast t2 with _ | a2
    · exact hno.2.1 hd2
    rcases hd3 : (b.column 2).downcast t3 with _ | a3
    · exact hno.2.2.1 hd3
    rcases hd4 : (b.column 3).downcast t4 with _ | a4
    · exact hno.2.2.2.1 hd4
    rcases hd5 : (b.column 4).downcast t5 with _ | a5
    · exact hno.2.2.2.2 hd5
    rw [process_quinary_eq b t1 t2 t3 t4 t5 tOut nm f a1 a2 a3 a4 a5 hd1 hd2 hd3 hd4 hd5] at he
    simp at he
  · intro hor
    rcases hd1 : (b.column 0).downcast t1 with _ | a1
    · exact ⟨"Column 0 type mismatch", by unfold process_quinary; rw [hd1]⟩
    rcases hd2 : (b.column 1).downcast t2 with _ | a2
    · exact ⟨"Column 1 type mismatch", by unfold process_quinary; rw [hd1, hd2]⟩
    rcases hd3 : (b.column 2).downcast t3 with _ | a3
    · exact ⟨"Column 2 type mismatch", by unfold process_quinary; rw [hd1, hd2, hd3]⟩
    rcases hd4 : (b.column 3).downcast t4 with _ | a4
    · exact ⟨"Column 3 type mismatch", by unfold process_quinary; rw [hd1, hd2, hd3, hd4]⟩
    rcases hd5 : (b.column 4).downcast t5 with _ | a5
    · exact ⟨"Column 4 type mismatch", by unfold process_quinary; rw [hd1, hd2, hd3, hd4, hd5]⟩
    rcases hor with hn | hn | hn | hn | hn <;> simp_all
  · intro hor g
    rcases hd1 : (b.column 0).downcast t1 with _ | a1
    · unfold process_quinary
      rw [hd1]
    rcases hd2 : (b.column 1).downcast t2 with _ | a2
    · unfold process_quinary
      rw [hd1, hd2]
    rcases hd3 : (b.column 2).downcast t3 with _ | a3
    · unfold process_quinary
      rw [hd1, hd2, hd3]
    rcases hd4 : (b.column 3).downcast t4 with _ | a4
    · unfold process_quinary
      rw [hd1, hd2, hd3, hd4]
    rcases hd5 : (b.column 4).downcast t5 with _ | a5
    · unfold process_quinary
      rw [hd1, hd2, hd3, hd4, hd5]
    rcases hor with hn | hn | hn | hn | hn <;> simp_all
  · intro hno
    push_neg at hno
    rcases hd1 : (b.column 0).downcast t1 with _ | a1
    · exact absurd hd1 hno.1
    rcases hd2 : (b.column 1).downcast t2 with _ | a2
    · exact absurd hd2 hno.2.1
    rcases hd3 : (b.column 2).downcast t3 with _ | a3
    · exact absurd hd3 hno.2.2.1
    rcases hd4 : (b.column 3).downcast t4 with _ | a4
    · exact absurd hd4 hno.2.2.2.1
    rcases hd5 : (b.column 4).downcast t5 with _ | a5
    · exact absurd hd5 hno.2.2.2.2
    exact ⟨_, process_quinary_eq b t1 t2 t3 t4 t5 tOut nm f a1 a2 a3 a4 a5 hd1 hd2 hd3 hd4 hd5⟩
  · intro fs2
    rfl


theorem c8_senary (b : RecordBatch) (t1 t2 t3 t4 t5 t6 tOut : ScalarType) (nm : String)
    (f : t1.carrier → t2.carrier → t3.carrier → t4.carrier → t5.carrier → t6.carrier → tOut.carrier)
    (hcols : 6 ≤ b.columns.length) :
    ((∃ e, process_senary b t1 t2 t3 t4 t5 t6 tOut nm f = .error e) ↔
      ((b.column 0).downcast t1 = none ∨ (b.column 1).downcast t2 = none ∨ (b.column 2).downcast t3 = none ∨ (b.column 3).downcast t4 = none ∨ (b.column 4).downcast t5 = none ∨ (b.column 5).downcast t6 = none)) ∧
    (((b.column 0).downcast t1 = none ∨ (b.column 1).downcast t2 = none ∨ (b.column 2).downcast t3 = none ∨ (b.column 3).downcast t4 = none ∨ (b.column 4).downcast t5 = none ∨ (b.column 5).downcast t6 = none) →
      ∀ (g : t1.carrier → t2.carrier → t3.carrier → t4.carrier → t5.carrier → t6.carrier → tOut.carrier),
        process_senary b t1 t2 t3 t4 t5 t6 tOut nm g = process_senary b t1 t2 t3 t4 t5 t6 tOut nm f) ∧
    (¬ ((b.column 0).downcast t1 = none ∨ (b.column 1).downcast t2 = none ∨ (b.column 2).downcast t3 = none ∨ (b.column 3).downcast t4 = none ∨ (b.column 4).downcast t5 = none ∨ (b.column 5).downcast t6 = none) →
      ∃ out, process_senary b t1 t2 t3 t4 t5 t6 tOut nm f = .ok out) ∧
    (∀ fs2, process_senary ⟨b.nrows, fs2, b.columns⟩ t1 t2 t3 t4 t5 t6 tOut nm f
      = process_senary b t1 t2 t3 t4 t5 t6 tOut nm f) := by
  refine ⟨⟨?_, ?_⟩, ?_, ?_, ?_⟩
  · rintro ⟨e, he⟩
    by_contra hno
    push_neg at hno
    rcases hd1 : (b.column 0).downcast t1 with _ | a1
    · exact hno.1 hd1
    rcases hd2 : (b.column 1).downcast t2 with _ | a2
    · exact hno.2.1 hd2
    rcases hd3 : (b.column 2).downcast t3 with _ | a3
    · exact hno.2.2.1 hd3
    rcases hd4 : (b.column 3).downcast t4 with _ | a4
    · exact hno.2.2.2.1 hd4
    rcases hd5 : (b.column 4).downcast t5 with _ | a5
    · exact hno.2.2.2.2.1 hd5
    rcases hd6 : (b.column 5).downcast t6 with _ | a6
    · exact hno.2.2.2.2.2 hd6
    rw [process_senary_eq b t1 t2 t3 t4 t5 t6 tOut nm f a1 a2 a3 a4 a5 a6 hd1 hd2 hd3 hd4 hd5 hd6] at he
    simp at he
  · intro hor
    rcases hd1 : (b.column 0).downcast t1 with _ | a1
    · exact ⟨"Column 0 type mismatch", by unfold process_senary; rw [hd1]⟩
    rcases hd2 : (b.column 1).downcast t2 with _ | a2
    · exact ⟨"Column 1 type mismatch", by unfold process_senary; rw [hd1, hd2]⟩
    rcases hd3 : (b.column 2).downcast t3 with _ | a3
    · exact ⟨"Column 2 type mismatch", by unfold process_senary; rw [hd1, hd2, hd3]⟩
    rcases hd4 : (b.column 3).downcast t4 with _ | a4
    · exact ⟨"Column 3 type mismatch", by unfold process_senary; rw [hd1, hd2, hd3, hd4]⟩
    rcases hd5 : (b.column 4).downcast t5 with _ | a5
    · exact ⟨"Column 4 type mismatch", by unfold process_senary; rw [hd1, hd2, hd3, hd4, hd5]⟩
    rcases hd6 : (b.column 5).downcast t6 with _ | a6
    · exact ⟨"Column 5 type mismatch", by unfold process_senary; rw [hd1, hd2, hd3, hd4, hd5, hd6]⟩
    rcases hor with hn | hn | hn | hn | hn | hn <;> simp_all
  · intro hor g
    rcases hd1 : (b.column 0).downcast t1 with _ | a1
    · unfold process_senary
      rw [hd1]
    rcases hd2 : (b.column 1).downcast t2 with _ | a2
    · unfold process_senary
      rw [hd1, hd2]
    rcases hd3 : (b.column 2).downcast t3 with _ | a3
    · unfold process_senary
      rw [hd1, hd2, hd3]
    rcases hd4 : (b.column 3).downcast t4 with _ | a4
    · unfold process_senary
      rw [hd1, hd2, hd3, hd4]
    rcases hd5 : (b.column 4).downcast t5 with _ | a5
    · unfold process_senary
      rw [hd1, hd2, hd3, hd4, hd5]
    rcases hd6 : (b.column 5).downcast t6 with _ | a6
    · unfold process_senary
      rw [hd1, hd2, hd3, hd4, hd5, hd6]
    rcases hor with hn | hn | hn | hn | hn | hn <;> simp_all
  · intro hno
    push_neg at hno
    rcases hd1 : (b.column 0).downcast t1 with _ | a1
    · exact absurd hd1 hno.1
    rcases hd2 : (b.column 1).downcast t2 with _ | a2
    · exact absurd hd2 hno.2.1
    rcases hd3 : (b.column 2).downcast t3 with _ | a3
    · exact absurd hd3 hno.2.2.1
    rcases hd4 : (b.column 3).downcast t4 with _ | a4
    · exact absurd hd4 hno.2.2.2.1
    rcases hd5 : (b.column 4).downcast t5 with _ | a5
    · exact absurd hd5 hno.2.2.2.2.1
    rcases hd6 : (b.column 5).downcast t6 with _ | a6
    · exact absurd hd6 hno.2.2.2.2.2
    exact ⟨_, process_senary_eq b t1 t2 t3 t4 t5 t6 tOut nm f a1 a2 a3 a4 a5 a6 hd1 hd2 hd3 hd4 hd5 hd6⟩
  · intro fs2
    rfl

/-- C8: each `process_*` method binds declared input position `j` to batch
column `j` (by position: the batch's field names are irrelevant), fails with a
column-type-mismatch error — invoking the user function for no row — exactly
when some bound column's runtime array type differs from the declared input
type's array type, and binds successfully otherwise. -/
theorem claim_C8 :
    (∀ (b : RecordBatch) (t1 tOut : ScalarType) (nm : String)
      (f : t1.carrier → tOut.carrier),
      1 ≤ b.columns.length →
      ((∃ e, process_unary b t1 tOut nm f = .error e) ↔
        ((b.column 0).downcast t1 = none)) ∧
      (((b.column 0).downcast t1 = none) →
        ∀ (g : t1.carrier → tOut.carrier),
          process_unary b t1 tOut nm g = process_unary b t1 tOut nm f) ∧
      (¬ ((b.column 0).downcast t1 = none) →
        ∃ out, process_unary b t1 tOut nm f = .ok out) ∧
      (∀ fs2, process_unary ⟨b.nrows, fs2, b.columns⟩ t1 tOut nm f
        = process_unary b t1 tOut nm f)) ∧
    (∀ (b : RecordBatch) (t1 t2 tOut : ScalarType) (nm : String)
      (f : t1.carrier → t2.carrier → tOut.carrier),
      2 ≤ b.columns.length →
      ((∃ e, process_binary b t1 t2 tOut nm f = .error e) ↔
        ((b.column 0).downcast t1 = none ∨ (b.column 1).downcast t2 = none)) ∧
      (((b.column 0).downcast t1 = none ∨ (b.column 1).downcast t2 = none) →
        ∀ (g : t1.carrier → t2.carrier → tOut.carrier),
          process_binary b t1 t2 tOut nm g = process_binary b t1 t2 tOut nm f) ∧
      (¬ ((b.column 0).downcast t1 = none ∨ (b.column 1).downcast t2 = none) →
        ∃ out, process_binary b t1 t2 tOut nm f = .ok out) ∧
      (∀ fs2, process_binary ⟨b.nrows, fs2, b.columns⟩ t1 t2 tOut nm f
        = process_binary b t1 t2 tOut nm f)) ∧
    (∀ (b : RecordBatch) (t1 t2 t3 tOut : ScalarType) (nm : String)
      (f : t1.carrier → t2.carrier → t3.carrier → tOut.carrier),
      3 ≤ b.columns.length →
      ((∃ e, process_ternary b t1 t2 t3 tOut nm f = .error e) ↔
        ((b.column 0).downcast t1 = none ∨ (b.column 1).downcast t2 = none ∨ (b.column 2).downcast t3 = none)) ∧
      (((b.column 0).downcast t1 = none ∨ (b.column 1).downcast t2 = none ∨ (b.column 2).downcast t3 = none) →
        ∀ (g : t1.carrier → t2.carrier → t3.carrier → tOut.carrier),
          process_ternary b t1 t2 t3 tOut nm g = process_ternary b t1 t2 t3 tOut nm f) ∧
      (¬ ((b.column 0).downcast t1 = none ∨ (b.column 1).downcast t2 = none ∨ (b.column 2).downcast t3 = none) →
        ∃ out, process_ternary b t1 t2 t3 tOut nm f = .ok out) ∧
      (∀ fs2, process_ternary ⟨b.nrows, fs2, b.columns⟩ t1 t2 t3 tOut nm f
        = process_ternary b t1 t2 t3 tOut nm f)) ∧
    (∀ (b : RecordBatch) (t1 t2 t3 t4 tOut : ScalarType) (nm : String)
      (f : t1.carrier → t2.carrier → t3.carrier → t4.carrier → tOut.carrier),
      4 ≤ b.columns.length →
      ((∃ e, process_quaternary b t1 t2 t3 t4 tOut nm f = .error e) ↔
        ((b.column 0).downcast t1 = none ∨ (b.column 1).downcast t2 = none ∨ (b.column 2).downcast t3 = none ∨ (b.column 3).downcast t4 = none)) ∧
      (((b.column 0).downcast t1 = none ∨ (b.column 1).downcast t2 = none ∨ (b.column 2).downcast t3 = none ∨ (b.column 3).downcast t4 = none) →
        ∀ (g : t1.carrier → t2.carrier → t3.carrier → t4.carrier → tOut.carrier),
          process_quaternary b t1 t2 t3 t4 tOut nm g = process_quaternary b t1 t2 t3 t4 tOut nm f) ∧
      (¬ ((b.column 0).downcast t1 = none ∨ (b.column 1).downcast t2 = none ∨ (b.column 2).downcast t3 = none ∨ (b.column 3).downcast t4 = none) →
        ∃ out, process_quaternary b t1 t2 t3 t4 tOut nm f = .ok out) ∧
      (∀ fs2, process_quaternary ⟨b.nrows, fs2, b.columns⟩ t1 t2 t3 t4 tOut nm f
        = process_quaternary b t1 t2 t3 t4 tOut nm f)) ∧
    (∀ (b : RecordBatch) (t1 t2 t3 t4 t5 tOut : ScalarType) (nm : String)
      (f : t1.carrier → t2.carrier → t3.carrier → t4.carrier → t5.carrier → tOut.carrier),
      5 ≤ b.columns.length →
      ((∃ e, process_quinary b t1 t2 t3 t4 t5 tOut nm f = .error e) ↔
        ((b.column 0).downcast t1 = none ∨ (b.column 1).downcast t2 = none ∨ (b.column 2).downcast t3 = none ∨ (b.column 3).downcast t4 = none ∨ (b.column 4).downcast t5 = none)) ∧
      (((b.column 0).downcast t1 = none ∨ (b.column 1).downcast t2 = none ∨ (b.column 2).downcast t3 = none ∨ (b.column 3).downcast t4 = none ∨ (b.column 4).downcast t5 = none) →
        ∀ (g : t1.carrier → t2.carrier → t3.carrier → t4.carrier → t5.carrier → tOut.carrier),
          process_quinary b t1 t2 t3 t4 t5 tOut nm g = process_quinary b t1 t2 t3 t4 t5 tOut nm f) ∧
      (¬ ((b.column 0).downcast t1 = none ∨ (b.column 1).downcast t2 = none ∨ (b.column 2).downcast t3 = none ∨ (b.column 3).downcast t4 = none ∨ (b.column 4).downcast t5 = none) →
        ∃ out, process_quinary b t1 t2 t3 t4 t5 tOut nm f = .ok out) ∧
      (∀ fs2, process_quinary ⟨b.nrows, fs2, b.columns⟩ t1 t2 t3 t4 t5 tOut nm f
        = process_quinary b t1 t2 t3 t4 t5 tOut nm f)) ∧
    (∀ (b : RecordBatch) (t1 t2 t3 t4 t5 t6 tOut : ScalarType) (nm : String)
      (f : t1.carrier → t2.carrier → t3.carrier → t4.carrier → t5.carrier → t6.carrier → tOut.carrier),
      6 ≤ b.columns.length →
      ((∃ e, process_senary b t1 t2 t3 t4 t5 t6 tOut nm f = .error e) ↔
        ((b.column 0).downcast t1 = none ∨ (b.column 1).downcast t2 = none ∨ (b.column 2).downcast t3 = none ∨ (b.column 3).downcast t4 = none ∨ (b.column 4).downcast t5 = none ∨ (b.column 5).downcast t6 = none)) ∧
      (((b.column 0).downcast t1 = none ∨ (b.column 1).downcast t2 = none ∨ (b.column 2).downcast t3 = none ∨ (b.column 3).downcast t4 = none ∨ (b.column 4).downcast t5 = none ∨ (b.column 5).downcast t6 = none) →
        ∀ (g : t1.carrier → t2.carrier → t3.carrier → t4.carrier → t5.carrier → t6.carrier → tOut.carrier),
          process_senary b t1 t2 t3 t4 t5 t6 tOut nm g = process_senary b t1 t2 t3 t4 t5 t6 tOut nm f) ∧
      (¬ ((b.column 0).downcast t1 = none ∨ (b.column 1).downcast t2 = none ∨ (b.column 2).downcast t3 = none ∨ (b.column 3).downcast t4 = none ∨ (b.column 4).downcast t5 = none ∨ (b.column 5).downcast t6 = none) →
        ∃ out, process_senary b t1 t2 t3 t4 t5 t6 tOut nm f = .ok out) ∧
      (∀ fs2, process_senary ⟨b.nrows, fs2, b.columns⟩ t1 t2 t3 t4 t5 t6 tOut nm f
        = process_senary b t1 t2 t3 t4 t5 t6 tOut nm f)) :=
  ⟨c8_unary, c8_binary, c8_ternary, c8_quaternary, c8_quinary, c8_senary⟩

theorem claim_C8_witness :
    (∃ e, process_unary (⟨0, [], [ArrowCol.utf8 ⟨[], []⟩]⟩ : RecordBatch)
      ScalarType.int64 ScalarType.int64 "o" (fun v => v) = .error e) ∧
    (∃ out, process_unary (⟨0, [], [ArrowCol.int64 ⟨[], []⟩]⟩ : RecordBatch)
      ScalarType.int64 ScalarType.int64 "o" (fun v => v) = .ok out) ∧
    (∃ e, process_binary (⟨0, [], [ArrowCol.int64 ⟨[], []⟩, ArrowCol.utf8 ⟨[], []⟩]⟩ : RecordBatch)
      ScalarType.int64 ScalarType.int64 ScalarType.int64 "o" (fun v w => v + w) = .error e) := by
  refine ⟨?_, ?_, ?_⟩
  · exact ((claim_C8.1 (⟨0, [], [ArrowCol.utf8 ⟨[], []⟩]⟩ : RecordBatch)
      .int64 .int64 "o" (fun v => v) (by decide)).1).2 rfl
  · exact (claim_C8.1 (⟨0, [], [ArrowCol.int64 ⟨[], []⟩]⟩ : RecordBatch)
      .int64 .int64 "o" (fun v => v) (by decide)).2.2.1
      (by intro h; exact Option.noConfusion h)
  · exact ((claim_C8.2.1 (⟨0, [], [ArrowCol.int64 ⟨[], []⟩, ArrowCol.utf8 ⟨[], []⟩]⟩ : RecordBatch)
      .int64 .int64 .int64 "o" (fun v w => v + w) (by decide)).1).2 (Or.inr rfl)

theorem c9_unary (b : RecordBatch) (t1 tOut : ScalarType) (nm : String)
    (f : t1.carrier → tOut.carrier) (out : RecordBatch)
    (hok : process_unary b t1 tOut nm f = .ok out) :
    out.fields = [⟨nm, tOut, true⟩] ∧ out.columns.length = 1 ∧
    out.nrows = b.num_rows ∧ (out.column 0).size = b.num_rows ∧
    (out.column 0).data_type = tOut := by
  rcases hd1 : (b.column 0).downcast t1 with _ | a1
  · rw [show process_unary b t1 tOut nm f = .error "Column 0 type mismatch" from by unfold process_unary; rw [hd1]] at hok
    simp at hok
  rw [process_unary_eq b t1 tOut nm f a1 hd1] at hok
  injection hok with hout
  subst hout
  refine ⟨rfl, rfl, ?_, ?_, ?_⟩
  · simp [output_batch, RecordBatch.num_rows]
  · simp [output_batch, RecordBatch.column, ofArray_size, to_array_size,
      RecordBatch.num_rows]
  · simp [output_batch, RecordBatch.column, ofArray_data_type]


theorem c9_binary (b : RecordBatch) (t1 t2 tOut : ScalarType) (nm : String)
    (f : t1.carrier → t2.carrier → tOut.carrier) (out : RecordBatch)
    (hok : process_binary b t1 t2 tOut nm f = .ok out) :
    out.fields = [⟨nm, tOut, true⟩] ∧ out.columns.length = 1 ∧
    out.nrows = b.num_rows ∧ (out.column 0).size = b.num_rows ∧
    (out.column 0).data_type = tOut := by
  rcases hd1 : (b.column 0).downcast t1 with _ | a1
  · rw [show process_binary b t1 t2 tOut nm f = .error "Column 0 type mismatch" from by unfold process_binary; rw [hd1]] at hok
    simp at hok
  rcases hd2 : (b.column 1).downcast t2 with _ | a2
  · rw [show process_binary b t1 t2 tOut nm f = .error "Column 1 type mismatch" from by unfold process_binary; rw [hd1, hd2]] at hok
    simp at hok
  rw [process_binary_eq b t1 t2 tOut nm f a1 a2 hd1 hd2] at hok
  injection hok with hout
  subst hout
  refine ⟨rfl, rfl, ?_, ?_, ?_⟩
  · simp [output_batch, RecordBatch.num_rows]
  · simp [output_batch, RecordBatch.column, ofArray_size, to_array_size,
      RecordBatch.num_rows]
  · simp [output_batch, RecordBatch.column, ofArray_data_type]


theorem c9_ternary (b : RecordBatch) (t1 t2 t3 tOut : ScalarType) (nm : String)
    (f : t1.carrier → t2.carrier → t3.carrier → tOut.carrier) (out : RecordBatch)
    (hok : process_ternary b t1 t2 t3 tOut nm f = .ok out) :
    out.fields = [⟨nm, tOut, true⟩] ∧ out.columns.length = 1 ∧
    out.nrows = b.num_rows ∧ (out.column 0).size = b.num_rows ∧
    (out.column 0).data_type = tOut := by
  rcases hd1 : (b.column 0).downcast t1 with _ | a1
  · rw [show process_ternary b t1 t2 t3 tOut nm f = .error "Column 0 type mismatch" from by unfold process_ternary; rw [hd1]] at hok
    simp at hok
  rcases hd2 : (b.column 1).downcast t2 with _ | a2
  · rw [show process_ternary b t1 t2 t3 tOut nm f = .error "Column 1 type mismatch" from by unfold process_ternary; rw [hd1, hd2]] at hok
    simp at hok
  rcases hd3 : (b.column 2).downcast t3 with _ | a3
  · rw [show process_ternary b t1 t2 t3 tOut nm f = .error "Column 2 type mismatch" from by unfold process_ternary; rw [hd1, hd2, hd3]] at hok
    simp at hok
  rw [process_ternary_eq b t1 t2 t3 tOut nm f a1 a2 a3 hd1 hd2 hd3] at hok
  injection hok with hout
  subst hout
  refine ⟨rfl, rfl, ?_, ?_, ?_⟩
  · simp [output_batch, RecordBatch.num_rows]
  · simp [output_batch, RecordBatch.column, ofArray_size, to_array_size,
      RecordBatch.num_rows]
  · simp [output_batch, RecordBatch.column, ofArray_data_type]


theorem c9_quaternary (b : RecordBatch) (t1 t2 t3 t4 tOut : ScalarType) (nm : String)
    (f : t1.carrier → t2.carrier → t3.carrier → t4.carrier → tOut.carrier) (out : RecordBatch)
    (hok : process_quaternary b t1 t2 t3 t4 tOut nm f = .ok out) :
    out.fields = [⟨nm, tOut, true⟩] ∧ out.columns.length = 1 ∧
    out.nrows = b.num_rows ∧ (out.column 0).size = b.num_rows ∧
    (out.column 0).data_type = tOut := by
  rcases hd1 : (b.column 0).downcast t1 with _ | a1
  · rw [show process_quaternary b t1 t2 t3 t4 tOut nm f = .error "Column 0 type mismatch" from by unfold process_quaternary; rw [hd1]] at hok
    simp at hok
  rcases hd2 : (b.column 1).downcast t2 with _ | a2
  · rw [show process_quaternary b t1 t2 t3 t4 tOut nm f = .error "Column 1 type mismatch" from by unfold process_quaternary; rw [hd1, hd2]] at hok
    simp at hok
  rcases hd3 : (b.column 2).downcast t3 with _ | a3
  · rw [show process_quaternary b t1 t2 t3 t4 tOut nm f = .error "Column 2 type mismatch" from by unfold process_quaternary; rw [hd1, hd2, hd3]] at hok
    simp at hok
  rcases hd4 : (b.column 3).downcast t4 with _ | a4
  · rw [show process_quaternary b t1 t2 t3 t4 tOut nm f = .error "Column 3 type mismatch" from by unfold process_quaternary; rw [hd1, hd2, hd3, hd4]] at hok
    simp at hok
  rw [process_quaternary_eq b t1 t2 t3 t4 tOut nm f a1 a2 a3 a4 hd1 hd2 hd3 hd4] at hok
  injection hok with hout
  subst hout
  refine ⟨rfl, rfl, ?_, ?_, ?_⟩
  · simp [output_batch, RecordBatch.num_rows]
  · simp [output_batch, RecordBatch.column, ofArray_size, to_array_size,
      RecordBatch.num_rows]
  · simp [output_batch, RecordBatch.column, ofArray_data_type]


theorem c9_quinary (b : RecordBatch) (t1 t2 t3 t4 t5 tOut : ScalarType) (nm : String)
    (f : t1.carrier → t2.carrier → t3.carrier → t4.carrier → t5.carrier → tOut.carrier) (out : RecordBatch)
    (hok : process_quinary b t1 t2 t3 t4 t5 tOut nm f = .ok out) :
    out.fields = [⟨nm, tOut, true⟩] ∧ out.columns.length = 1 ∧
    out.nrows = b.num_rows ∧ (out.column 0).size = b.num_rows ∧
    (out.column 0).data_type = tOut := by
  rcases hd1 : (b.column 0).downcast t1 with _ | a1
  · rw [show process_quinary b t1 t2 t3 t4 t5 tOut nm f = .error "Column 0 type mismatch" from by unfold process_quinary; rw [hd1]] at hok
    simp at hok
  rcases hd2 : (b.column 1).downcast t2 with _ | a2
  · rw [show process_quinary b t1 t2 t3 t4 t5 tOut nm f = .error "Column 1 type mismatch" from by unfold process_quinary; rw [hd1, hd2]] at hok
    simp at hok
  rcases hd3 : (b.column 2).downcast t3 with _ | a3
  · rw [show process_quinary b t1 t2 t3 t4 t5 tOut nm f = .error "Column 2 type mismatch" from by unfold process_quinary; rw [hd1, hd2, hd3]] at hok
    simp at hok
  rcases hd4 : (b.column 3).downcast t4 with _ | a4
  · rw [show process_quinary b t1 t2 t3 t4 t5 tOut nm f = .error "Column 3 type mismatch" from by unfold process_quinary; rw [hd1, hd2, hd3, hd4]] at hok
    simp at hok
  rcases hd5 : (b.column 4).downcast t5 with _ | a5
  · rw [show process_quinary b t1 t2 t3 t4 t5 tOut nm f = .error "Column 4 type mismatch" from by unfold process_quinary; rw [hd1, hd2, hd3, hd4, hd5]] at hok
    simp at hok
  rw [process_quinary_eq b t1 t2 t3 t4 t5 tOut nm f a1 a2 a3 a4 a5 hd1 hd2 hd3 hd4 hd5] at hok
  injection hok with hout
  subst hout
  refine ⟨rfl, rfl, ?_, ?_, ?_⟩
  · simp [output_batch, RecordBatch.num_rows]
  · simp [output_batch, RecordBatch.column, ofArray_size, to_array_size,
      RecordBatch.num_rows]
  · simp [output_batch, RecordBatch.column, ofArray_data_type]


theorem c9_senary (b : RecordBatch) (t1 t2 t3 t4 t5 t6 tOut : ScalarType) (nm : String)
    (f : t1.carrier → t2.carrier → t3.carrier → t4.carrier → t5.carrier → t6.carrier → tOut.carrier) (out : RecordBatch)
    (hok : process_senary b t1 t2 t3 t4 t5 t6 tOut nm f = .ok out) :
    out.fields = [⟨nm, tOut, true⟩] ∧ out.columns.length = 1 ∧
    out.nrows = b.num_rows ∧ (out.column 0).size = b.num_rows ∧
    (out.column 0).data_type = tOut := by
  rcases hd1 : (b.column 0).downcast t1 with _ | a1
  · rw [show process_senary b t1 t2 t3 t4 t5 t6 tOut nm f = .error "Column 0 type mismatch" from by unfold process_senary; rw [hd1]] at hok
    simp at hok
  rcases hd2 : (b.column 1).downcast t2 with _ | a2
  · rw [show process_senary b t1 t2 t3 t4 t5 t6 tOut nm f = .error "Column 1 type mismatch" from by unfold process_senary; rw [hd1, hd2]] at hok
    simp at hok
  rcases hd3 : (b.column 2).downcast t3 with _ | a3
  · rw [show process_senary b t1 t2 t3 t4 t5 t6 tOut nm f = .error "Column 2 type mismatch" from by unfold process_senary; rw [hd1, hd2, hd3]] at hok
    simp at hok
  rcases hd4 : (b.column 3).downcast t4 with _ | a4
  · rw [show process_senary b t1 t2 t3 t4 t5 t6 tOut nm f = .error "Column 3 type mismatch" from by unfold process_senary; rw [hd1, hd2, hd3, hd4]] at hok
    simp at hok
  rcases hd5 : (b.column 4).downcast t5 with _ | a5
  · rw [show process_senary b t1 t2 t3 t4 t5 t6 tOut nm f = .error "Column 4 type mismatch" from by unfold process_senary; rw [hd1, hd2, hd3, hd4, hd5]] at hok
    simp at hok
  rcases hd6 : (b.column 5).downcast t6 with _ | a6
  · rw [show process_senary b t1 t2 t3 t4 t5 t6 tOut nm f = .error "Column 5 type mismatch" from by unfold process_senary; rw [hd1, hd2, hd3, hd4, hd5, hd6]] at hok
    simp at hok
  rw [process_senary_eq b t1 t2 t3 t4 t5 t6 tOut nm f a1 a2 a3 a4 a5 a6 hd1 hd2 hd3 hd4 hd5 hd6] at hok
  injection hok with hout
  subst hout
  refine ⟨rfl, rfl, ?_, ?_, ?_⟩
  · simp [output_batch, RecordBatch.num_rows]
  · simp [output_batch, RecordBatch.column, ofArray_size, to_array_size,
      RecordBatch.num_rows]
  · simp [output_batch, RecordBatch.column, ofArray_data_type]

/-- C9: every batch a successful `process_*` call returns has exactly one
column, of length equal to the input row count, whose field is named
`output_field_name`, declared nullable, with the data type of the registered
output type; and the declared output schema carried in the request contributes
only the name of its field 0 to `process_with` — its type and nullability are
never consulted. -/
theorem claim_C9 :
    (∀ (b : RecordBatch) (t1 tOut : ScalarType) (nm : String)
      (f : t1.carrier → tOut.carrier) (out : RecordBatch),
      process_unary b t1 tOut nm f = .ok out →
      out.fields = [⟨nm, tOut, true⟩] ∧ out.columns.length = 1 ∧
      out.nrows = b.num_rows ∧ (out.column 0).size = b.num_rows ∧
      (out.column 0).data_type = tOut) ∧
    (∀ (b : RecordBatch) (t1 t2 tOut : ScalarType) (nm : String)
      (f : t1.carrier → t2.carrier → tOut.carrier) (out : RecordBatch),
      process_binary b t1 t2 tOut nm f = .ok out →
      out.fields = [⟨nm, tOut, true⟩] ∧ out.columns.length = 1 ∧
      out.nrows = b.num_rows ∧ (out.column 0).size = b.num_rows ∧
      (out.column 0).data_type = tOut) ∧
    (∀ (b : RecordBatch) (t1 t2 t3 tOut : ScalarType) (nm : String)
      (f : t1.carrier → t2.carrier → t3.carrier → tOut.carrier) (out : RecordBatch),
      process_ternary b t1 t2 t3 tOut nm f = .ok out →
      out.fields = [⟨nm, tOut, true⟩] ∧ out.columns.length = 1 ∧
      out.nrows = b.num_rows ∧ (out.column 0).size = b.num_rows ∧
      (out.column 0).data_type = tOut) ∧
    (∀ (b : RecordBatch) (t1 t2 t3 t4 tOut : ScalarType) (nm : String)
      (f : t1.carrier → t2.carrier → t3.carrier → t4.carrier → tOut.carrier) (out : RecordBatch),
      process_quaternary b t1 t2 t3 t4 tOut nm f = .ok out →
      out.fields = [⟨nm, tOut, true⟩] ∧ out.columns.length = 1 ∧
      out.nrows = b.num_rows ∧ (out.column 0).size = b.num_rows ∧
      (out.column 0).data_type = tOut) ∧
    (∀ (b : RecordBatch) (t1 t2 t3 t4 t5 tOut : ScalarType) (nm : String)
      (f : t1.carrier → t2.carrier → t3.carrier → t4.carrier → t5.carrier → tOut.carrier) (out : RecordBatch),
      process_quinary b t1 t2 t3 t4 t5 tOut nm f = .ok out →
      out.fields = [⟨nm, tOut, true⟩] ∧ out.columns.length = 1 ∧
      out.nrows = b.num_rows ∧ (out.column 0).size = b.num_rows ∧
      (out.column 0).data_type = tOut) ∧
    (∀ (b : RecordBatch) (t1 t2 t3 t4 t5 t6 tOut : ScalarType) (nm : String)
      (f : t1.carrier → t2.carrier → t3.carrier → t4.carrier → t5.carrier → t6.carrier → tOut.carrier) (out : RecordBatch),
      process_senary b t1 t2 t3 t4 t5 t6 tOut nm f = .ok out →
      out.fields = [⟨nm, tOut, true⟩] ∧ out.columns.length = 1 ∧
      out.nrows = b.num_rows ∧ (out.column 0).size = b.num_rows ∧
      (out.column 0).data_type = tOut) ∧
    (∀ (batches : List RecordBatch) (s1 s2 : List SchemaField) (m : String)
      (p : RecordBatch → String → String → Except String RecordBatch),
      (s1.getD 0 default).name = (s2.getD 0 default).name →
      process_with batches s1 m p = process_with batches s2 m p) := by
  refine ⟨c9_unary, c9_binary, c9_ternary, c9_quaternary, c9_quinary, c9_senary, ?_⟩
  intro batches s1 s2 m p hname
  unfold process_with
  rw [hname]

theorem claim_C9_witness :
    ((output_batch "o" ScalarType.int64 [some (6 : Int), none]).fields
        = [⟨"o", ScalarType.int64, true⟩] ∧
      (output_batch "o" ScalarType.int64 [some (6 : Int), none]).columns.length = 1 ∧
      (output_batch "o" ScalarType.int64 [some (6 : Int), none]).nrows
        = (⟨2, [], [ArrowCol.int64 ⟨[true, false], [(5 : Int), 0]⟩]⟩ : RecordBatch).num_rows ∧
      ((output_batch "o" ScalarType.int64 [some (6 : Int), none]).column 0).size
        = (⟨2, [], [ArrowCol.int64 ⟨[true, false], [(5 : Int), 0]⟩]⟩ : RecordBatch).num_rows ∧
      ((output_batch "o" ScalarType.int64 [some (6 : Int), none]).column 0).data_type
        = ScalarType.int64) ∧
    process_with [] [⟨"n", ScalarType.utf8, true⟩] "m" (fun b _ _ => .ok b)
      = process_with [] [⟨"n", ScalarType.int64, false⟩] "m" (fun b _ _ => .ok b) := by
  constructor
  · exact claim_C9.1 (⟨2, [], [ArrowCol.int64 ⟨[true, false], [(5 : Int), 0]⟩]⟩ : RecordBatch)
      .int64 .int64 "o" (fun v => v + 1)
      (output_batch "o" ScalarType.int64 [some (6 : Int), none]) (by rfl)
  · exact claim_C9.2.2.2.2.2.2 [] [⟨"n", ScalarType.utf8, true⟩]
      [⟨"n", ScalarType.int64, false⟩] "m" (fun b _ _ => .ok b) rfl

theorem le_bytes_roundtrip (L : Nat) (h : L < 2 ^ 31) :
    le_bytes_to_int32 (int32_to_le_bytes L) = (L : Int) := by
  unfold le_bytes_to_int32 int32_to_le_bytes
  have hm : L % 2 ^ 32 = L := Nat.mod_eq_of_lt (by omega)
  simp only [List.getD_cons_zero, List.getD_cons_succ]
  rw [hm]
  have hsum : L % 256 + 256 * (L / 256 % 256) + 65536 * (L / 65536 % 256)
      + 16777216 * (L / 16777216 % 256) = L := by omega
  rw [hsum, if_pos h]

/-- C3: every framed message written by `write_ipc_message` is, in order, the
4-byte continuation marker `FF FF FF FF`, a 4-byte little-endian signed integer
equal to the metadata length, the metadata block, `(8 - len % 8) % 8` zero
padding bytes, then the body bytes (stated for metadata below `i32::MAX`,
where the `as i32` cast is value-preserving). -/
theorem claim_C3 (buffer : List Nat) (e : EncodedData)
    (hlen : e.ipc_message.length < 2 ^ 31) :
    ∃ len_bytes pad,
      write_ipc_message buffer e
        = buffer ++ [0xFF, 0xFF, 0xFF, 0xFF] ++ len_bytes ++ e.ipc_message
            ++ pad ++ e.arrow_data ∧
      len_bytes.length = 4 ∧
      le_bytes_to_int32 len_bytes = (e.ipc_message.length : Int) ∧
      pad = List.replicate ((8 - e.ipc_message.length % 8) % 8) 0 ∧
      (∀ x ∈ pad, x = 0) ∧
      (e.ipc_message.length + pad.length) % 8 = 0 := by
  refine ⟨int32_to_le_bytes e.ipc_message.length,
    List.replicate ((8 - e.ipc_message.length % 8) % 8) 0,
    rfl, rfl, le_bytes_roundtrip _ hlen, rfl, ?_, ?_⟩
  · intro x hx
    exact List.eq_of_mem_replicate hx
  · rw [List.length_replicate]
    omega

theorem claim_C3_witness :
    ∃ len_bytes pad,
      write_ipc_message [] ⟨[1, 2, 3], [9]⟩
        = [] ++ [0xFF, 0xFF, 0xFF, 0xFF] ++ len_bytes ++ [1, 2, 3]
            ++ pad ++ [9] ∧
      len_bytes.length = 4 ∧
      le_bytes_to_int32 len_bytes = ((3 : Nat) : Int) ∧
      pad = List.replicate ((8 - (3 : Nat) % 8) % 8) 0 ∧
      (∀ x ∈ pad, x = 0) ∧
      ((3 : Nat) + pad.length) % 8 = 0 :=
  claim_C3 [] ⟨[1, 2, 3], [9]⟩ (by norm_num)

/-- C5: `serialize_batches` on an empty batch sequence returns `Ok` with the
exactly-empty byte buffer, for any behaviour of the underlying encoder; and
decoding — concatenating the schema stream with the records stream and parsing
the result as one stream — yields zero batches when a valid schema stream is
combined with an empty records stream. -/
theorem claim_C5 :
    (∀ (encode : RecordBatch → Except String (List EncodedData × EncodedData)),
      serialize_batches encode [] = .ok []) ∧
    (∀ fields : List SchemaField,
      read_input_batches (serialize_schema_stream fields) [] = .ok []) := by
  constructor
  · intro encode
    rfl
  · intro fields
    rfl

/-- C4: transport is detected solely from the inbound value — a string-typed
`body` field means HTTP (its content, JSON-parsed, becomes the payload), and
anything else means Direct with the value itself as payload; the Direct
response is the value unwrapped, while the HTTP response carries
`statusCode 200`, `isBase64Encoded false`, and a body string that JSON-parses
back to the Direct response. -/
theorem claim_C4 :
    (∀ (decode : String → Except String Json) (payload : Json) (s : String)
      (v : Json),
      payload.get "body" = some (.str s) → decode s = .ok v →
      parse_request decode payload = .ok (v, true)) ∧
    (∀ (decode : String → Except String Json) (payload : Json),
      (payload.get "body").bind Json.as_str = none →
      parse_request decode payload = .ok (payload, false)) ∧
    (∀ (encode : Json → String) (r : Json), wrap_response encode r false = r) ∧
    (∀ (decode : String → Except String Json) (encode : Json → String) (r : Json),
      decode (encode r) = .ok r →
      (wrap_response encode r true).get "statusCode" = some (.num 200) ∧
      (wrap_response encode r true).get "isBase64Encoded" = some (.bool false) ∧
      ∃ s, (wrap_response encode r true).get "body" = some (.str s) ∧
        decode s = .ok (wrap_response encode r false)) := by
  refine ⟨?_, ?_, ?_, ?_⟩
  · intro decode payload s v hb hd
    unfold parse_request
    rw [show (payload.get "body").bind Json.as_str = some s from by rw [hb]; rfl]
    show (match decode s with
      | .ok w => Except.ok (w, true)
      | .error e => Except.error e) = Except.ok (v, true)
    rw [hd]
  · intro decode payload hnone
    unfold parse_request
    rw [hnone]
  · intro encode r
    rfl
  · intro decode encode r hrt
    exact ⟨rfl, rfl, encode r, rfl, hrt⟩

theorem claim_C4_witness :
    parse_request (fun _ => .ok (Json.num 1)) (Json.obj [("body", Json.str "x")])
      = .ok (Json.num 1, true) ∧
    parse_request (fun _ => .ok (Json.num 1)) (Json.obj [("a", Json.null)])
      = .ok (Json.obj [("a", Json.null)], false) ∧
    wrap_response (fun _ => "x") (Json.num 2) false = Json.num 2 ∧
    ((wrap_response (fun _ => "x") (Json.num 1) true).get "statusCode"
        = some (.num 200) ∧
      (wrap_response (fun _ => "x") (Json.num 1) true).get "isBase64Encoded"
        = some (.bool false) ∧
      ∃ s, (wrap_response (fun _ => "x") (Json.num 1) true).get "body"
          = some (.str s) ∧
        (fun _ : String => (Except.ok (Json.num 1) : Except String Json)) s
          = .ok (wrap_response (fun _ => "x") (Json.num 1) false)) :=
  ⟨claim_C4.1 (fun _ => .ok (Json.num 1)) (Json.obj [("body", Json.str "x")])
      "x" (Json.num 1) rfl rfl,
   claim_C4.2.1 (fun _ => .ok (Json.num 1)) (Json.obj [("a", Json.null)]) rfl,
   claim_C4.2.2.1 (fun _ => "x") (Json.num 2),
   claim_C4.2.2.2 (fun _ : String => (Except.ok (Json.num 1) : Except String Json))
      (fun _ => "x") (Json.num 1) rfl⟩

theorem handle_direct_eq (decode : String → Except String Json)
    (encode : Json → String) (ping_handle udf_process : Json → Except String Json)
    (payload : Json)
    (hnb : (payload.get "body").bind Json.as_str = none) :
    handle_athena_request decode encode ping_handle udf_process payload
      = match (payload.get "@type").bind Json.as_str with
        | none => .error "Missing @type field"
        | some request_type =>
          match (if request_type = "PingRequest" then ping_handle payload
            else if request_type = "UserDefinedFunctionRequest" then
              udf_process payload
            else .error ("Unknown request type: " ++ request_type)) with
          | .error e => .error e
          | .ok response => .ok (wrap_response encode response false) := by
  unfold handle_athena_request
  rw [show parse_request decode payload = .ok (payload, false) from by
    unfold parse_request; rw [hnb]]

/-- C7: request-kind classification of the unwrapped payload — a string
`@type` of `"PingRequest"` routes to the ping path, of
`"UserDefinedFunctionRequest"` to the UDF path; any other string fails with an
unknown-request-type error and a missing discriminator fails with a
malformed-request error, in both cases producing no response. -/
theorem claim_C7 :
    ∀ (decode : String → Except String Json) (encode : Json → String)
      (ping_handle udf_process : Json → Except String Json) (payload : Json),
      (payload.get "body").bind Json.as_str = none →
      ((payload.get "@type" = some (.str "PingRequest") →
        handle_athena_request decode encode ping_handle udf_process payload
          = (ping_handle payload).map (fun r => wrap_response encode r false)) ∧
      (payload.get "@type" = some (.str "UserDefinedFunctionRequest") →
        handle_athena_request decode encode ping_handle udf_process payload
          = (udf_process payload).map (fun r => wrap_response encode r false)) ∧
      (∀ s, payload.get "@type" = some (.str s) →
        s ≠ "PingRequest" → s ≠ "UserDefinedFunctionRequest" →
        handle_athena_request decode encode ping_handle udf_process payload
          = .error ("Unknown request type: " ++ s)) ∧
      (payload.get "@type" = none →
        handle_athena_request decode encode ping_handle udf_process payload
          = .error "Missing @type field")) := by
  intro decode encode ping_handle udf_process payload hnb
  refine ⟨?_, ?_, ?_, ?_⟩
  · intro ht
    rw [handle_direct_eq decode encode ping_handle udf_process payload hnb]
    rw [show (payload.get "@type").bind Json.as_str = some "PingRequest" from by
      rw [ht]; rfl]
    cases hph : ping_handle payload <;> simp [Except.map, hph]
  · intro ht
    rw [handle_direct_eq decode encode ping_handle udf_process payload hnb]
    rw [show (payload.get "@type").bind Json.as_str
        = some "UserDefinedFunctionRequest" from by rw [ht]; rfl]
    cases hup : udf_process payload <;> simp [Except.map, hup]
  · intro s ht hs1 hs2
    rw [handle_direct_eq decode encode ping_handle udf_process payload hnb]
    rw [show (payload.get "@type").bind Json.as_str = some s from by
      rw [ht]; rfl]
    simp [if_neg hs1, if_neg hs2]
  · intro ht
    rw [handle_direct_eq decode encode ping_handle udf_process payload hnb]
    rw [show (payload.get "@type").bind Json.as_str = none from by rw [ht]; rfl]

theorem claim_C7_witness :
    handle_athena_request (fun _ => (Except.ok Json.null : Except String Json))
      (fun _ => "x") (fun _ => .ok (Json.str "pong")) (fun _ => .ok (Json.str "udf"))
      (Json.obj [("@type", Json.str "PingRequest")])
      = ((fun _ => (Except.ok (Json.str "pong") : Except String Json))
          (Json.obj [("@type", Json.str "PingRequest")])).map
          (fun r => wrap_response (fun _ => "x") r false) ∧
    handle_athena_request (fun _ => (Except.ok Json.null : Except String Json))
      (fun _ => "x") (fun _ => .ok (Json.str "pong")) (fun _ => .ok (Json.str "udf"))
      (Json.obj [("@type", Json.str "UserDefinedFunctionRequest")])
      = ((fun _ => (Except.ok (Json.str "udf") : Except String Json))
          (Json.obj [("@type", Json.str "UserDefinedFunctionRequest")])).map
          (fun r => wrap_response (fun _ => "x") r false) ∧
    handle_athena_request (fun _ => (Except.ok Json.null : Except String Json))
      (fun _ => "x") (fun _ => .ok (Json.str "pong")) (fun _ => .ok (Json.str "udf"))
      (Json.obj [("@type", Json.str "FooRequest")])
      = .error ("Unknown request type: " ++ "FooRequest") ∧
    handle_athena_request (fun _ => (Except.ok Json.null : Except String Json))
      (fun _ => "x") (fun _ => .ok (Json.str "pong")) (fun _ => .ok (Json.str "udf"))
      (Json.obj [("a", Json.null)])
      = .error "Missing @type field" :=
  ⟨(claim_C7 (fun _ => (Except.ok Json.null : Except String Json)) (fun _ => "x")
      (fun _ => .ok (Json.str "pong")) (fun _ => .ok (Json.str "udf"))
      (Json.obj [("@type", Json.str "PingRequest")]) rfl).1 rfl,
   (claim_C7 (fun _ => (Except.ok Json.null : Except String Json)) (fun _ => "x")
      (fun _ => .ok (Json.str "pong")) (fun _ => .ok (Json.str "udf"))
      (Json.obj [("@type", Json.str "UserDefinedFunctionRequest")]) rfl).2.1 rfl,
   (claim_C7 (fun _ => (Except.ok Json.null : Except String Json)) (fun _ => "x")
      (fun _ => .ok (Json.str "pong")) (fun _ => .ok (Json.str "udf"))
      (Json.obj [("@type", Json.str "FooRequest")]) rfl).2.2.1 "FooRequest" rfl
      (by decide) (by decide),
   (claim_C7 (fun _ => (Except.ok Json.null : Except String Json)) (fun _ => "x")
      (fun _ => .ok (Json.str "pong")) (fun _ => .ok (Json.str "udf"))
      (Json.obj [("a", Json.null)]) rfl).2.2.2 rfl⟩

/-- C10: `parse_request` returns `Ok((payload, false))` for every payload
without a top-level string-valued `body` field, with no other shape
requirement; with such a field it fails exactly when the body string fails to
JSON-parse; and any payload carrying a top-level string `body` is treated as
HTTP-wrapped with all its other fields ignored. -/
theorem claim_C10 :
    (∀ (decode : String → Except String Json) (payload : Json),
      (payload.get "body").bind Json.as_str = none →
      parse_request decode payload = .ok (payload, false)) ∧
    (∀ (decode : String → Except String Json) (payload : Json) (s : String),
      payload.get "body" = some (.str s) →
      (∀ e, parse_request decode payload = .error e ↔ decode s = .error e) ∧
      (∀ v, decode s = .ok v → parse_request decode payload = .ok (v, true))) ∧
    (∀ (decode : String → Except String Json) (p1 p2 : Json) (s : String),
      p1.get "body" = some (.str s) → p2.get "body" = some (.str s) →
      parse_request decode p1 = parse_request decode p2) := by
  have hred : ∀ (decode : String → Except String Json) (payload : Json)
      (s : String), payload.get "body" = some (.str s) →
      parse_request decode payload
        = match decode s with
          | .ok w => Except.ok (w, true)
          | .error e => Except.error e := by
    intro decode payload s hb
    unfold parse_request
    rw [show (payload.get "body").bind Json.as_str = some s from by rw [hb]; rfl]
  refine ⟨?_, ?_, ?_⟩
  · intro decode payload hnone
    unfold parse_request
    rw [hnone]
  · intro decode payload s hb
    constructor
    · intro e
      rw [hred decode payload s hb]
      cases hd : decode s <;> simp
    · intro v hv
      rw [hred decode payload s hb, hv]
  · intro decode p1 p2 s hb1 hb2
    rw [hred decode p1 s hb1, hred decode p2 s hb2]

theorem claim_C10_witness :
    parse_request (fun _ => (Except.error "bad" : Except String Json)) (Json.obj [])
      = .ok (Json.obj [], false) ∧
    parse_request (fun _ => (Except.error "bad" : Except String Json))
      (Json.obj [("body", Json.str "x")]) = .error "bad" ∧
    parse_request (fun _ => (Except.error "bad" : Except String Json))
      (Json.obj [("body", Json.str "x"), ("a", Json.null)])
      = parse_request (fun _ => (Except.error "bad" : Except String Json))
          (Json.obj [("body", Json.str "x")]) :=
  ⟨claim_C10.1 (fun _ => (Except.error "bad" : Except String Json)) (Json.obj []) rfl,
   ((claim_C10.2.1 (fun _ => (Except.error "bad" : Except String Json))
      (Json.obj [("body", Json.str "x")]) "x" rfl).1 "bad").mpr rfl,
   claim_C10.2.2 (fun _ => (Except.error "bad" : Except String Json))
     (Json.obj [("body", Json.str "x"), ("a", Json.null)])
     (Json.obj [("body", Json.str "x")]) "x" rfl rfl⟩
